import Mathlib

/-!
Verification of the trolley8 motion-control core against its specification.

The definitions below are a shallow embedding of the C++ sources:
* `components/hardware_control` (ESC driver and Hall pulse processing),
* `components/wire_learning_mode` (speed progression and wire-end detection),
* `components/automatic_mode` (cycling engine),
* `components/manual_mode` (manual engine),
* `components/mode_coordinator` (sensor-validation gate and mode arbitration).

Modelling conventions:
* C `float` values are modelled as exact rationals (`ℚ`); all constants of the
  sources (0.05f, 2.0f, ...) are exactly representable.
* Timestamps (`esp_timer_get_time`, microseconds) and counters are `ℕ`.
  Unsigned C subtraction appears only in contexts where the minuend is the
  later timestamp, so truncated `ℕ` subtraction agrees with `uint64_t`.
* `esp_err_t` return codes become the inductive `EspErr`; functions return
  the updated state together with their code (errors are values, not throws).
* Each module's file-static globals become one state structure; a C function
  becomes a Lean function from that state (plus the values it reads from
  other modules, passed explicitly) to the updated state.
* All `esp_timer_get_time()` calls inside a single C function are serialized
  to the one `now : ℕ` argument of its embedding.
* Log output and the human-readable message strings are not modelled.
-/

set_option autoImplicit false
set_option maxHeartbeats 1000000

namespace Trolley8

/-- Subset of `esp_err_t` codes returned by the embedded functions. -/
inductive EspErr where
  | ok
  | errInvalidArg
  | errInvalidState
  | errInvalidSize
  | errTimeout
  | errNoMem
  | fail
deriving DecidableEq, Repr

/-- The `hardware_error_t` enum of hardware_control.h. -/
inductive HwError where
  | noError
  | escNotResponding
  | hallSensorTimeout
  | pwmInitFailed
  | gpioInitFailed
  | speedOutOfRange
  | systemNotInitialized
deriving DecidableEq, Repr

/-! Hardware configuration constants from hardware_control.h and pin_config.h. -/

/-- WHEEL_CIRCUMFERENCE_MM = 191.6f -/
def WHEEL_CIRCUMFERENCE_MM : ℚ := 1916 / 10

/-- MM_TO_M = 0.001f -/
def MM_TO_M : ℚ := 1 / 1000

/-- MAX_SPEED_MS = 2.0f, the hardware speed limit. -/
def MAX_SPEED_MS : ℚ := 2

/-- ESC_SPEED_DEADBAND = 0.05f -/
def ESC_SPEED_DEADBAND : ℚ := 1 / 20

/-- HALL_TIMEOUT_MS = 2000 -/
def HALL_TIMEOUT_MS : ℕ := 2000

/-- ESC_MIN_DUTY = 819 (pin_config.h) -/
def ESC_MIN_DUTY : ℤ := 819

/-- ESC_NEUTRAL_DUTY = 1229 (pin_config.h) -/
def ESC_NEUTRAL_DUTY : ℤ := 1229

/-- ESC_MAX_DUTY = 1638 (pin_config.h) -/
def ESC_MAX_DUTY : ℤ := 1638

/-- ESC_MAX_SPEED_CHANGE = 100 (pin_config.h) -/
def ESC_MAX_SPEED_CHANGE : ℤ := 100

/-- The `hardware_status_t` structure of hardware_control.h. -/
structure hardware_status where
  esc_armed : Bool
  esc_responding : Bool
  current_esc_duty : ℤ
  current_speed_ms : ℚ
  target_speed_ms : ℚ
  direction_forward : Bool
  total_rotations : ℕ
  last_hall_time : ℕ
  hall_sensor_healthy : Bool
  system_initialized : Bool
deriving DecidableEq, Repr

/-- The file-static state of hardware_control.cpp: `g_hw_status` plus the
other globals that the embedded functions touch (`g_last_error`,
`g_last_esc_duty`, `g_current_position_m`, `g_rotation_count_offset`,
`g_rate_limiting_enabled`). -/
structure HwState where
  status : hardware_status
  last_error : HwError
  last_esc_duty : ℤ
  current_position_m : ℚ
  rotation_count_offset : ℕ
  rate_limiting_enabled : Bool
deriving DecidableEq, Repr

/-- The global initializer of `g_hw_status` and friends at boot. -/
def HwState.boot : HwState where
  status := {
    esc_armed := false
    esc_responding := false
    current_esc_duty := ESC_NEUTRAL_DUTY
    current_speed_ms := 0
    target_speed_ms := 0
    direction_forward := true
    total_rotations := 0
    last_hall_time := 0
    hall_sensor_healthy := false
    system_initialized := false }
  last_error := .noError
  last_esc_duty := ESC_NEUTRAL_DUTY
  current_position_m := 0
  rotation_count_offset := 0
  rate_limiting_enabled := true

/-- Net effect of `hardware_init` on the module state (queue/task/GPIO/PWM
setup is external I/O; the success path resets `g_hw_status` and ends with
`system_initialized = true`). -/
def hardware_init (st : HwState) : HwState :=
  { st with
    status := { HwState.boot.status with system_initialized := true }
    last_esc_duty := ESC_NEUTRAL_DUTY }

/-- `hardware_is_speed_valid`: speed in [0, MAX_SPEED_MS]. -/
def hardware_is_speed_valid (speed_ms : ℚ) : Bool :=
  decide (0 ≤ speed_ms) && decide (speed_ms ≤ MAX_SPEED_MS)

/-- `hardware_get_rotation_count`: total rotations minus the offset. -/
def hardware_get_rotation_count (st : HwState) : ℕ :=
  st.status.total_rotations - st.rotation_count_offset

/-- `hardware_reset_rotation_count`. -/
def hardware_reset_rotation_count (st : HwState) : HwState :=
  { st with rotation_count_offset := st.status.total_rotations }

/-- `hardware_get_time_since_last_hall_pulse` (microseconds; 0 if no pulse
ever arrived). -/
def hardware_get_time_since_last_hall_pulse (st : HwState) (now : ℕ) : ℕ :=
  if st.status.last_hall_time = 0 then 0 else now - st.status.last_hall_time

/-- `hardware_get_current_speed`. -/
def hardware_get_current_speed (st : HwState) : ℚ :=
  st.status.current_speed_ms

/-- `hardware_rotations_to_distance`. -/
def hardware_rotations_to_distance (rotations : ℕ) : ℚ :=
  (rotations : ℚ) * WHEEL_CIRCUMFERENCE_MM * MM_TO_M

/-- `hardware_reset_position`: zero the position and the rotation offset. -/
def hardware_reset_position (st : HwState) : HwState :=
  hardware_reset_rotation_count { st with current_position_m := 0 }

/-- `hardware_set_motor_speed`: the guarded speed command.  The three guards
are checked in source order: not-initialized, speed out of range, not armed;
only when all pass are `target_speed_ms` and `direction_forward` written. -/
def hardware_set_motor_speed (st : HwState) (speed_ms : ℚ) (forward : Bool) :
    HwState × EspErr :=
  if st.status.system_initialized = false then
    ({ st with last_error := .systemNotInitialized }, .errInvalidState)
  else if hardware_is_speed_valid speed_ms = false then
    ({ st with last_error := .speedOutOfRange }, .errInvalidArg)
  else if st.status.esc_armed = false then
    ({ st with last_error := .escNotResponding }, .errInvalidState)
  else
    ({ st with status := { st.status with
        target_speed_ms := speed_ms
        direction_forward := forward } }, .ok)

/-- `hardware_emergency_stop`: zero the target and force neutral duty;
always succeeds (the C function unconditionally returns ESP_OK). -/
def hardware_emergency_stop (st : HwState) : HwState :=
  { st with status := { st.status with
      target_speed_ms := 0
      current_esc_duty := ESC_NEUTRAL_DUTY } }

/-- `hardware_esc_arm`: requires initialization; the blocking three-step PWM
sequence is external output, the state effect is armed + neutral duty. -/
def hardware_esc_arm (st : HwState) : HwState × EspErr :=
  if st.status.system_initialized = false then
    ({ st with last_error := .systemNotInitialized }, .errInvalidState)
  else
    ({ st with status := { st.status with
        esc_armed := true
        current_esc_duty := ESC_NEUTRAL_DUTY } }, .ok)

/-- `hardware_esc_disarm`: zero target, disarm, neutral duty. -/
def hardware_esc_disarm (st : HwState) : HwState × EspErr :=
  ({ st with status := { st.status with
      target_speed_ms := 0
      esc_armed := false
      current_esc_duty := ESC_NEUTRAL_DUTY } }, .ok)

/-- `speed_to_esc_duty`: clamp speed to [0, MAX_SPEED_MS]; below the deadband
return the neutral duty, else map linearly toward the direction-specific
extreme (the `uint16_t` cast truncates, which on these nonnegative values is
the floor). -/
def speed_to_esc_duty (speed_ms : ℚ) (forward : Bool) : ℤ :=
  let s1 : ℚ := if MAX_SPEED_MS < speed_ms then MAX_SPEED_MS else speed_ms
  let s : ℚ := if s1 < 0 then 0 else s1
  if s < ESC_SPEED_DEADBAND then ESC_NEUTRAL_DUTY
  else if forward then
    ESC_NEUTRAL_DUTY + ⌊(s / MAX_SPEED_MS) * ((ESC_MAX_DUTY : ℚ) - (ESC_NEUTRAL_DUTY : ℚ))⌋
  else
    ESC_NEUTRAL_DUTY - ⌊(s / MAX_SPEED_MS) * ((ESC_NEUTRAL_DUTY : ℚ) - (ESC_MIN_DUTY : ℚ))⌋

/-- First half of one `esc_update_task` iteration: if initialized and armed,
ramp `current_esc_duty` toward the duty computed from the target speed
(rate-limited to ESC_MAX_SPEED_CHANGE per tick) and record `g_last_esc_duty`;
then recompute `esc_responding`. -/
def esc_update_duty_step (st : HwState) : HwState :=
  let st1 :=
    if st.status.system_initialized = true ∧ st.status.esc_armed = true then
      let target_duty := speed_to_esc_duty st.status.target_speed_ms st.status.direction_forward
      let duty_diff := target_duty - st.status.current_esc_duty
      let new_duty :=
        if st.rate_limiting_enabled = true then
          if ESC_MAX_SPEED_CHANGE < |duty_diff| then
            if 0 < duty_diff then st.status.current_esc_duty + ESC_MAX_SPEED_CHANGE
            else st.status.current_esc_duty - ESC_MAX_SPEED_CHANGE
          else target_duty
        else target_duty
      { st with
        status := { st.status with current_esc_duty := new_duty }
        last_esc_duty := new_duty }
    else st
  { st1 with status := { st1.status with
      esc_responding := decide (st1.status.current_esc_duty = st1.last_esc_duty) } }

/-- Second half of one `esc_update_task` iteration: the Hall health check.
If a pulse has ever arrived and more than HALL_TIMEOUT_MS have passed since,
force the measured speed to zero, and if the target speed is above the
deadband also mark the Hall sensor unhealthy. -/
def esc_update_health_check (st : HwState) (now : ℕ) : HwState :=
  if 0 < st.status.last_hall_time ∧
      HALL_TIMEOUT_MS * 1000 < now - st.status.last_hall_time then
    let st1 := { st with status := { st.status with current_speed_ms := 0 } }
    if ESC_SPEED_DEADBAND < st1.status.target_speed_ms then
      { st1 with status := { st1.status with hall_sensor_healthy := false } }
    else st1
  else st

/-- One full iteration of the periodic `esc_update_task` loop body. -/
def esc_update_step (st : HwState) (now : ℕ) : HwState :=
  esc_update_health_check (esc_update_duty_step st) now

/-- One iteration of `hall_processing_task` for a dequeued pulse timestamp:
increment the rotation counter, blend the instantaneous speed with the 0.7/0.3
smoothing filter, move the signed position by one circumference, record the
pulse time and mark the Hall sensor healthy.  (The task-local `last_time`
always equals `last_hall_time` from the previous iteration.) -/
def hall_processing_step (st : HwState) (hall_time : ℕ) : HwState :=
  let st1 := { st with status := { st.status with
      total_rotations := st.status.total_rotations + 1 } }
  let st2 :=
    if 0 < st1.status.last_hall_time then
      let time_diff_us := hall_time - st1.status.last_hall_time
      if 0 < time_diff_us then
        let speed_ms := (WHEEL_CIRCUMFERENCE_MM * MM_TO_M) / ((time_diff_us : ℚ) / 1000000)
        { st1 with status := { st1.status with
            current_speed_ms := st1.status.current_speed_ms * (7/10) + speed_ms * (3/10) } }
      else st1
    else st1
  let st3 :=
    if st2.status.direction_forward = true then
      { st2 with current_position_m :=
          st2.current_position_m + WHEEL_CIRCUMFERENCE_MM * MM_TO_M }
    else
      { st2 with current_position_m :=
          st2.current_position_m - WHEEL_CIRCUMFERENCE_MM * MM_TO_M }
  { st3 with status := { st3.status with
      last_hall_time := hall_time
      hall_sensor_healthy := true } }

/-! Basic facts about the speed command guards. -/

/-- Out-of-range speeds fail validation. -/
theorem is_speed_valid_false_of_out_of_range (s : ℚ)
    (h : s < 0 ∨ MAX_SPEED_MS < s) : hardware_is_speed_valid s = false := by
  rcases h with h | h <;> simp [hardware_is_speed_valid] <;> intro h' <;> linarith

/-- A speed command never writes an out-of-range value: the target either
stays what it was, or becomes the commanded (valid) speed. -/
theorem set_motor_speed_target_cases (st : HwState) (s : ℚ) (dir : Bool) :
    (hardware_set_motor_speed st s dir).1.status.target_speed_ms = st.status.target_speed_ms ∨
    ((hardware_set_motor_speed st s dir).1.status.target_speed_ms = s ∧
      0 ≤ s ∧ s ≤ MAX_SPEED_MS) := by
  unfold hardware_set_motor_speed
  split
  · exact Or.inl rfl
  · split
    · exact Or.inl rfl
    · split
      · exact Or.inl rfl
      · rename_i hval _
        have hv : hardware_is_speed_valid s = true := by
          cases h : hardware_is_speed_valid s with
          | false => exact absurd h hval
          | true => rfl
        simp only [hardware_is_speed_valid, Bool.and_eq_true, decide_eq_true_eq] at hv
        exact Or.inr ⟨rfl, hv.1, hv.2⟩

/-- A sample initialized-and-armed hardware state, used as concrete input by
the witness theorems. -/
def hwSample : HwState :=
  { HwState.boot with status := { HwState.boot.status with
      system_initialized := true
      esc_armed := true
      target_speed_ms := 1/2
      current_speed_ms := 1/2
      last_hall_time := 1000000 } }

/-- C6: for every speed value s outside [0, MAX_SPEED] and every direction,
`hardware_set_motor_speed` on an initialized system returns the
invalid-argument error code (with the distinct `speedOutOfRange` hardware
error recorded, as a value rather than a throw/abort) and leaves
`target_speed_ms` unchanged. -/
theorem set_motor_speed_rejects_out_of_range (st : HwState) (s : ℚ) (dir : Bool)
    (hinit : st.status.system_initialized = true)
    (hrange : s < 0 ∨ MAX_SPEED_MS < s) :
    (hardware_set_motor_speed st s dir).2 = EspErr.errInvalidArg ∧
    (hardware_set_motor_speed st s dir).1.status.target_speed_ms =
      st.status.target_speed_ms ∧
    (hardware_set_motor_speed st s dir).1.last_error = HwError.speedOutOfRange := by
  have hv := is_speed_valid_false_of_out_of_range s hrange
  unfold hardware_set_motor_speed
  simp [hinit, hv]

/-- Witness for C6 at the concrete out-of-range speed 3 m/s. -/
theorem set_motor_speed_rejects_out_of_range_witness :
    (hardware_set_motor_speed hwSample 3 true).2 = EspErr.errInvalidArg ∧
    (hardware_set_motor_speed hwSample 3 true).1.status.target_speed_ms =
      hwSample.status.target_speed_ms ∧
    (hardware_set_motor_speed hwSample 3 true).1.last_error = HwError.speedOutOfRange :=
  set_motor_speed_rejects_out_of_range hwSample 3 true (by decide)
    (Or.inr (by norm_num [MAX_SPEED_MS]))

/-- The duty-ramp half of the ESC update tick does not touch the Hall pulse
timestamp, the target speed or the measured speed. -/
theorem esc_update_duty_step_fields (st : HwState) :
    (esc_update_duty_step st).status.last_hall_time = st.status.last_hall_time ∧
    (esc_update_duty_step st).status.target_speed_ms = st.status.target_speed_ms ∧
    (esc_update_duty_step st).status.current_speed_ms = st.status.current_speed_ms := by
  unfold esc_update_duty_step
  refine ⟨?_, ?_, ?_⟩ <;> (dsimp only; split <;> rfl)

/-- C8: in the periodic ESC update step, whenever more than 2000 ms have
elapsed since the last Hall pulse while the target speed exceeds the
deadband, `current_speed_ms` is forced to 0 and `hall_sensor_healthy`
becomes false. -/
theorem esc_update_hall_timeout_forces_zero (st : HwState) (now : ℕ)
    (hpulse : 0 < st.status.last_hall_time)
    (htimeout : HALL_TIMEOUT_MS * 1000 < now - st.status.last_hall_time)
    (htarget : ESC_SPEED_DEADBAND < st.status.target_speed_ms) :
    (esc_update_step st now).status.current_speed_ms = 0 ∧
    (esc_update_step st now).status.hall_sensor_healthy = false := by
  have hf := esc_update_duty_step_fields st
  unfold esc_update_step esc_update_health_check
  dsimp only
  rw [hf.1, hf.2.1]
  rw [if_pos (And.intro hpulse htimeout), if_pos htarget]
  exact ⟨rfl, rfl⟩

/-- Witness for C8: a pulse at t = 1 s, checked at t = 5 s with a 0.5 m/s
target, zeroes the speed and clears Hall health. -/
theorem esc_update_hall_timeout_forces_zero_witness :
    (esc_update_step hwSample 5000000).status.current_speed_ms = 0 ∧
    (esc_update_step hwSample 5000000).status.hall_sensor_healthy = false :=
  esc_update_hall_timeout_forces_zero hwSample 5000000 (by decide) (by decide)
    (by norm_num [ESC_SPEED_DEADBAND, hwSample, HwState.boot])

/-! Wire learning engine (wire_learning_mode.h / wire_learning_mode.cpp). -/

/-- WIRE_LEARNING_START_SPEED_MS = 0.1f -/
def WIRE_LEARNING_START_SPEED_MS : ℚ := 1 / 10

/-- WIRE_LEARNING_MAX_SPEED_MS = 1.0f -/
def WIRE_LEARNING_MAX_SPEED_MS : ℚ := 1

/-- WIRE_LEARNING_SPEED_INCREMENT = 0.1f -/
def WIRE_LEARNING_SPEED_INCREMENT : ℚ := 1 / 10

/-- WIRE_LEARNING_TIMEOUT_S = 60 -/
def WIRE_LEARNING_TIMEOUT_S : ℕ := 60

/-- WIRE_LENGTH_TOLERANCE_PERCENT = 5.0f -/
def WIRE_LENGTH_TOLERANCE_PERCENT : ℚ := 5

/-- MIN_WIRE_LENGTH_M = 2.0f -/
def MIN_WIRE_LENGTH_M : ℚ := 2

/-- MAX_WIRE_LENGTH_M = 2000.0f -/
def MAX_WIRE_LENGTH_M : ℚ := 2000

/-- WIRE_END_IMPACT_THRESHOLD_G = 1.0f -/
def WIRE_END_IMPACT_THRESHOLD_G : ℚ := 1

/-- WIRE_END_HALL_TIMEOUT_MS = 2000 -/
def WIRE_END_HALL_TIMEOUT_MS : ℕ := 2000

/-- WIRE_END_SPEED_DROP_PERCENT = 70.0f -/
def WIRE_END_SPEED_DROP_PERCENT : ℚ := 70

/-- LEARNING_MIN_HALL_PULSES = 10 -/
def LEARNING_MIN_HALL_PULSES : ℕ := 10

/-- LEARNING_HALL_TIMEOUT_MS = 3000 -/
def LEARNING_HALL_TIMEOUT_MS : ℕ := 3000

/-- The `wire_learning_state_t` enum, in declaration order. -/
inductive wire_learning_state where
  | idle
  | initializing
  | forwardDirection
  | directionPause
  | reverseDirection
  | calculatingResults
  | complete
  | failed
  | stopping
deriving DecidableEq, Repr

/-- Numeric value of a `wire_learning_state_t`, for the C enum comparisons. -/
def wire_learning_state.idx : wire_learning_state → ℕ
  | .idle => 0
  | .initializing => 1
  | .forwardDirection => 2
  | .directionPause => 3
  | .reverseDirection => 4
  | .calculatingResults => 5
  | .complete => 6
  | .failed => 7
  | .stopping => 8

/-- The `wire_end_detection_method_t` enum. -/
inductive wire_end_detection_method where
  | wireEndNone
  | wireEndImpact
  | wireEndHallTimeout
  | wireEndSpeedDrop
  | wireEndUserStop
deriving DecidableEq, Repr

/-- The sensor readings consumed by the wire-end detectors on one tick:
`sensor_health_get_status().total_accel_g`,
`hardware_get_time_since_last_hall_pulse()` and
`hardware_get_current_speed()`. -/
structure sensor_inputs where
  total_accel_g : ℚ
  time_since_last_pulse_us : ℕ
  current_speed_ms : ℚ
deriving DecidableEq, Repr

/-- The detection globals of wire_learning_mode.cpp:
`g_consecutive_hall_timeouts`, `g_speed_history[5]`,
`g_speed_history_index`. -/
structure detection_state where
  consecutive_hall_timeouts : ℕ
  speed_history : List ℚ
  speed_history_index : ℕ
deriving DecidableEq, Repr

/-- The state written by `wire_learning_reset_detection` (also the boot
value of the detection globals). -/
def detection_state.reset : detection_state :=
  ⟨0, [0, 0, 0, 0, 0], 0⟩

/-- `wire_learning_detect_impact`: accelerometer magnitude above the fixed
1.0 g threshold. -/
def wire_learning_detect_impact (total_accel_g : ℚ) : Bool :=
  decide (WIRE_END_IMPACT_THRESHOLD_G < total_accel_g)

/-- `wire_learning_detect_hall_timeout`: requires three consecutive
observations of more than 2000 ms without a pulse; a quiet observation
resets the counter, and a firing observation also resets it. -/
def wire_learning_detect_hall_timeout (d : detection_state)
    (time_since_last_pulse_us : ℕ) : Bool × detection_state :=
  if WIRE_END_HALL_TIMEOUT_MS * 1000 < time_since_last_pulse_us then
    let c := d.consecutive_hall_timeouts + 1
    if 3 ≤ c then (true, { d with consecutive_hall_timeouts := 0 })
    else (false, { d with consecutive_hall_timeouts := c })
  else (false, { d with consecutive_hall_timeouts := 0 })

/-- `wire_learning_detect_speed_drop`: push the current speed into the
5-sample rolling window, then fire if the window average is below 70% of the
current test speed, provided the test speed exceeds 0.2 m/s. -/
def wire_learning_detect_speed_drop (d : detection_state)
    (current_speed : ℚ) (current_test_speed : ℚ) : Bool × detection_state :=
  let hist := d.speed_history.set d.speed_history_index current_speed
  let idx := (d.speed_history_index + 1) % 5
  let avg := hist.sum / 5
  let threshold := current_test_speed * (WIRE_END_SPEED_DROP_PERCENT / 100)
  (decide ((1 : ℚ)/5 < current_test_speed) && decide (avg < threshold),
   { d with speed_history := hist, speed_history_index := idx })

/-- `wire_learning_get_best_detection_method`: the fixed if/else-if chain,
in source order impact, then speed-drop, then Hall-timeout; a detector's
state is only advanced when the detectors before it in the chain did not
fire (C short-circuiting). -/
def wire_learning_get_best_detection_method (d : detection_state)
    (inp : sensor_inputs) (current_test_speed : ℚ) :
    wire_end_detection_method × detection_state :=
  if wire_learning_detect_impact inp.total_accel_g then (.wireEndImpact, d)
  else
    let sd := wire_learning_detect_speed_drop d inp.current_speed_ms current_test_speed
    if sd.1 then (.wireEndSpeedDrop, sd.2)
    else
      let ht := wire_learning_detect_hall_timeout sd.2 inp.time_since_last_pulse_us
      if ht.1 then (.wireEndHallTimeout, ht.2)
      else (.wireEndNone, ht.2)

/-- AUTO_MODE_MAX_IMPACT_G = 0.5f (automatic_mode.h) -/
def AUTO_MODE_MAX_IMPACT_G : ℚ := 1 / 2

/-- `automatic_mode_is_at_wire_end`: the automatic engine's wire-end check —
impact above 0.5 g, then a single-shot Hall-pulse gap of more than 2 s, then
measured speed below 0.2 m/s while the engine's target exceeds 0.5 m/s. -/
def automatic_mode_is_at_wire_end (inp : sensor_inputs)
    (current_target_speed : ℚ) : Bool :=
  if AUTO_MODE_MAX_IMPACT_G < inp.total_accel_g then true
  else if 2000000 < inp.time_since_last_pulse_us then true
  else if (1 : ℚ)/2 < current_target_speed ∧ inp.current_speed_ms < (1 : ℚ)/5 then true
  else false

/-- The fields of `wire_learning_progress_t` that the embedded functions
read or write (message strings elided). -/
structure wire_learning_progress where
  state : wire_learning_state
  learning_start_time : ℕ
  current_direction_forward : Bool
  direction_start_rotations : ℕ
  direction_start_time : ℕ
  current_learning_speed : ℚ
  forward_rotations : ℕ
  forward_distance_m : ℚ
  forward_time_ms : ℕ
  forward_end_method : wire_end_detection_method
  reverse_rotations : ℕ
  reverse_distance_m : ℚ
  reverse_time_ms : ℕ
  reverse_end_method : wire_end_detection_method
  calculated_wire_length_m : ℚ
  length_difference_percent : ℚ
  learning_successful : Bool
deriving DecidableEq, Repr

/-- The all-zero `wire_learning_progress_t` produced by `memset(...,0,...)`. -/
def wire_learning_progress.zero : wire_learning_progress where
  state := .idle
  learning_start_time := 0
  current_direction_forward := false
  direction_start_rotations := 0
  direction_start_time := 0
  current_learning_speed := 0
  forward_rotations := 0
  forward_distance_m := 0
  forward_time_ms := 0
  forward_end_method := .wireEndNone
  reverse_rotations := 0
  reverse_distance_m := 0
  reverse_time_ms := 0
  reverse_end_method := .wireEndNone
  calculated_wire_length_m := 0
  length_difference_percent := 0
  learning_successful := false

/-- The `wire_learning_results_t` structure. -/
structure wire_learning_results where
  complete : Bool
  wire_length_m : ℚ
  optimal_learning_speed_ms : ℚ
  optimal_cruise_speed_ms : ℚ
  forward_rotations : ℕ
  reverse_rotations : ℕ
  total_learning_time_ms : ℕ
  primary_detection_method : wire_end_detection_method
  learning_accuracy_percent : ℚ
deriving DecidableEq, Repr

/-- The all-zero `wire_learning_results_t`. -/
def wire_learning_results.zero : wire_learning_results :=
  ⟨false, 0, 0, 0, 0, 0, 0, .wireEndNone, 0⟩

/-- The file-static state of wire_learning_mode.cpp.  The last two fields
are history observers added by this development: `published_results` records
the argument of the engine's call to `mode_coordinator_set_wire_learning_results`
and `published_coasting` records that `mode_coordinator_set_coasting_data`
was called; no transition reads them. -/
structure WLState where
  initialized : Bool
  progress : wire_learning_progress
  results : wire_learning_results
  current_test_speed : ℚ
  hall_pulses_at_speed_start : ℕ
  speed_test_start_time : ℕ
  speed_validated : Bool
  coasting_calibration_active : Bool
  coasting_start_rotations : ℕ
  coasting_start_time : ℕ
  coasting_start_speed : ℚ
  detection : detection_state
  coasting_calibration_invoked : Bool
  published_results : Option wire_learning_results
  published_coasting : Bool
deriving DecidableEq, Repr

/-- The boot value of the wire-learning globals (`g_current_test_speed`
initialized to WIRE_LEARNING_START_SPEED_MS, everything else zeroed). -/
def WLState.boot : WLState where
  initialized := false
  progress := wire_learning_progress.zero
  results := wire_learning_results.zero
  current_test_speed := WIRE_LEARNING_START_SPEED_MS
  hall_pulses_at_speed_start := 0
  speed_test_start_time := 0
  speed_validated := false
  coasting_calibration_active := false
  coasting_start_rotations := 0
  coasting_start_time := 0
  coasting_start_speed := 0
  detection := detection_state.reset
  coasting_calibration_invoked := false
  published_results := none
  published_coasting := false

/-- `wire_learning_mode_init`: zero the progress and results and mark the
module initialized (the speed-progression globals keep their values). -/
def wire_learning_mode_init (wl : WLState) : WLState :=
  { wl with
    initialized := true
    progress := wire_learning_progress.zero
    results := wire_learning_results.zero }

/-- `start_speed_test`: record the new test speed, clear the validated flag,
snapshot the rotation count and the start time, then command the motor; the
progress field `current_learning_speed` is only written when the motor
command succeeds (the C function returns early on error, after the globals
above were already written). -/
def start_speed_test (wl : WLState) (hw : HwState) (now : ℕ) (speed : ℚ) :
    WLState × HwState :=
  let wl1 := { wl with
    current_test_speed := speed
    speed_validated := false
    hall_pulses_at_speed_start := hardware_get_rotation_count hw
    speed_test_start_time := now }
  let cmd := hardware_set_motor_speed hw speed wl.progress.current_direction_forward
  if cmd.2 ≠ .ok then (wl1, cmd.1)
  else ({ wl1 with progress := { wl1.progress with current_learning_speed := speed } }, cmd.1)

/-- `validate_current_speed`: succeed (and latch `g_speed_validated`) as soon
as at least LEARNING_MIN_HALL_PULSES pulses accumulated since the speed
change; otherwise report false, whether or not the 3000 ms timeout has
elapsed. -/
def validate_current_speed (wl : WLState) (hw : HwState) (now : ℕ) :
    Bool × WLState :=
  let elapsed_time := now - wl.speed_test_start_time
  let hall_pulses := hardware_get_rotation_count hw - wl.hall_pulses_at_speed_start
  if LEARNING_MIN_HALL_PULSES ≤ hall_pulses then
    (true, { wl with speed_validated := true })
  else if LEARNING_HALL_TIMEOUT_MS * 1000 < elapsed_time then (false, wl)
  else (false, wl)

/-- `progress_to_next_speed`: below the 1.0 m/s ceiling, step the test speed
up by 0.1 m/s (clamped to the ceiling) and start the next speed test; at the
ceiling do nothing. -/
def progress_to_next_speed (wl : WLState) (hw : HwState) (now : ℕ) :
    WLState × HwState :=
  if WIRE_LEARNING_MAX_SPEED_MS ≤ wl.current_test_speed then (wl, hw)
  else
    let next0 := wl.current_test_speed + WIRE_LEARNING_SPEED_INCREMENT
    let next := if WIRE_LEARNING_MAX_SPEED_MS < next0 then WIRE_LEARNING_MAX_SPEED_MS else next0
    start_speed_test wl hw now next

/-- `start_coasting_calibration`: record the coasting baseline and command
5.0 m/s.  The observer field `coasting_calibration_invoked` records the
call. -/
def start_coasting_calibration (wl : WLState) (hw : HwState) (now : ℕ) :
    WLState × HwState :=
  let wl1 := { wl with
    coasting_calibration_active := true
    coasting_calibration_invoked := true
    coasting_start_rotations := hardware_get_rotation_count hw
    coasting_start_time := now
    coasting_start_speed := 5 }
  (wl1, (hardware_set_motor_speed hw 5 wl.progress.current_direction_forward).1)

/-- `process_coasting_calibration`: nothing while inactive or still below
4.8 m/s; once at speed, the C function stops the motor and blocks in a
polling loop until the trolley stops, then publishes the measured coasting
data to the coordinator.  The blocking measurement loop is summarized by the
`published_coasting` observer; the C10 theorem shows this code is never
reached, because the calibration is only started at test speed ≥ 4 m/s. -/
def process_coasting_calibration (wl : WLState) (hw : HwState) :
    WLState × HwState :=
  if wl.coasting_calibration_active = false then (wl, hw)
  else if hardware_get_current_speed hw < 24/5 then (wl, hw)
  else
    ({ wl with coasting_calibration_active := false, published_coasting := true },
     (hardware_set_motor_speed hw 0 true).1)

/-- `calculate_final_results`: average the two measured distances, compute
the difference percentage relative to that average, and succeed exactly when
it is within the 5% tolerance; on success build and publish the results to
the coordinator, on failure enter the Failed state publishing nothing; stop
the motor either way.  (With both distances zero the C code divides 0 by 0,
producing NaN and hence failure; in `ℚ` that division yields 0 — the theorems
about this function therefore assume a positive average.) -/
def calculate_final_results (wl : WLState) (hw : HwState) (now : ℕ) :
    WLState × HwState × EspErr :=
  let p := wl.progress
  let len := (p.forward_distance_m + p.reverse_distance_m) / 2
  let difference := |p.forward_distance_m - p.reverse_distance_m|
  let diffPercent := (difference / len) * 100
  let p1 := { p with
    calculated_wire_length_m := len
    length_difference_percent := diffPercent }
  let hw1 := hardware_emergency_stop hw
  if diffPercent ≤ WIRE_LENGTH_TOLERANCE_PERCENT then
    let r : wire_learning_results := {
      complete := true
      wire_length_m := len
      optimal_learning_speed_ms := wl.current_test_speed
      optimal_cruise_speed_ms := min (wl.current_test_speed * (3/2)) 5
      forward_rotations := p.forward_rotations
      reverse_rotations := p.reverse_rotations
      total_learning_time_ms := (now - p.learning_start_time) / 1000
      primary_detection_method := p.forward_end_method
      learning_accuracy_percent := 100 - diffPercent }
    ({ wl with
        progress := { p1 with learning_successful := true, state := .complete }
        results := r
        published_results := some r }, hw1, .ok)
  else
    ({ wl with
        progress := { p1 with learning_successful := false, state := .failed } },
      hw1, .fail)

/-- `handle_forward_direction`: start the first speed test, else validate the
current speed and progress, else run the wire-end detectors; on detection
record the forward leg, validate its length, run the opportunistic coasting
calibration when the test speed reached 4 m/s, then stop, reverse direction
and reset the speed progression and detectors. -/
def handle_forward_direction (wl : WLState) (hw : HwState) (now : ℕ)
    (accel_g : ℚ) : WLState × HwState :=
  if wl.speed_validated = false ∧ wl.current_test_speed = 0 then
    start_speed_test wl hw now WIRE_LEARNING_START_SPEED_MS
  else if wl.speed_validated = false then
    let v := validate_current_speed wl hw now
    if v.1 = true then progress_to_next_speed v.2 hw now
    else
      let inp : sensor_inputs :=
        ⟨accel_g, hardware_get_time_since_last_hall_pulse hw now,
          hardware_get_current_speed hw⟩
      let det := wire_learning_get_best_detection_method v.2.detection inp
        v.2.current_test_speed
      let wl2 := { v.2 with detection := det.2 }
      if det.1 = .wireEndNone then (wl2, hw)
      else
        let fr := hardware_get_rotation_count hw - wl2.progress.direction_start_rotations
        let fd := hardware_rotations_to_distance fr
        let p : wire_learning_progress := { wl2.progress with
          forward_rotations := fr
          forward_distance_m := fd
          forward_time_ms := (now - wl2.progress.direction_start_time) / 1000
          forward_end_method := det.1 }
        let wl3 := { wl2 with progress := p }
        if fd < MIN_WIRE_LENGTH_M ∨ MAX_WIRE_LENGTH_M < fd then
          ({ wl3 with progress := { p with state := .failed } }, hw)
        else
          let c : WLState × HwState :=
            if (4 : ℚ) ≤ wl3.current_test_speed then
              let s1 := start_coasting_calibration wl3 hw now
              process_coasting_calibration s1.1 s1.2
            else (wl3, hw)
          let hw1 := hardware_emergency_stop c.2
          let p2 := { c.1.progress with
            state := wire_learning_state.reverseDirection
            current_direction_forward := false
            direction_start_rotations := hardware_get_rotation_count hw1
            direction_start_time := now }
          ({ c.1 with
              progress := p2
              current_test_speed := 0
              speed_validated := false
              detection := detection_state.reset }, hw1)
  else (wl, hw)

/-- `handle_reverse_direction`: same speed progression and detection as the
forward leg; on detection record the reverse leg and move to the
result-calculation state. -/
def handle_reverse_direction (wl : WLState) (hw : HwState) (now : ℕ)
    (accel_g : ℚ) : WLState × HwState :=
  if wl.speed_validated = false ∧ wl.current_test_speed = 0 then
    start_speed_test wl hw now WIRE_LEARNING_START_SPEED_MS
  else if wl.speed_validated = false then
    let v := validate_current_speed wl hw now
    if v.1 = true then progress_to_next_speed v.2 hw now
    else
      let inp : sensor_inputs :=
        ⟨accel_g, hardware_get_time_since_last_hall_pulse hw now,
          hardware_get_current_speed hw⟩
      let det := wire_learning_get_best_detection_method v.2.detection inp
        v.2.current_test_speed
      let wl2 := { v.2 with detection := det.2 }
      if det.1 = .wireEndNone then (wl2, hw)
      else
        let rr := hardware_get_rotation_count hw - wl2.progress.direction_start_rotations
        let rd := hardware_rotations_to_distance rr
        ({ wl2 with progress := { wl2.progress with
            reverse_rotations := rr
            reverse_distance_m := rd
            reverse_time_ms := (now - wl2.progress.direction_start_time) / 1000
            reverse_end_method := det.1
            state := wire_learning_state.calculatingResults } }, hw)
  else (wl, hw)

/-- `wire_learning_mode_start`: prerequisite checks (the coordinator's
sensor-validated flag, hardware status and sensor-health readiness are read
from other modules; their combined outcome is the `prereq_ok` argument),
then zero the progress, auto-arm the ESC if needed, reset position and
rotation tracking and enter the forward-direction state with the speed
progression reset. -/
def wire_learning_mode_start (wl : WLState) (hw : HwState) (now : ℕ)
    (prereq_ok : Bool) : WLState × HwState × EspErr :=
  if wl.initialized = false then (wl, hw, .errInvalidState)
  else if prereq_ok = false then (wl, hw, .errInvalidState)
  else
    let p0 := { wire_learning_progress.zero with
      state := wire_learning_state.initializing
      learning_start_time := now
      current_direction_forward := true }
    let wl1 := { wl with progress := p0 }
    let armStep : HwState × EspErr :=
      if hw.status.esc_armed = false then hardware_esc_arm hw else (hw, .ok)
    if armStep.2 ≠ .ok then
      ({ wl1 with progress := { p0 with state := wire_learning_state.failed } },
        armStep.1, armStep.2)
    else
      let hw2 := hardware_reset_rotation_count (hardware_reset_position armStep.1)
      ({ wl1 with
          progress := { p0 with
            state := wire_learning_state.forwardDirection
            direction_start_time := now
            direction_start_rotations := hardware_get_rotation_count hw2 }
          current_test_speed := 0
          speed_validated := false
          detection := detection_state.reset }, hw2, .ok)

/-- `wire_learning_mode_stop`: stop the motor; immediate stop goes to Idle,
graceful stop to Stopping; either way the coasting calibration flag is
cleared. -/
def wire_learning_mode_stop (wl : WLState) (hw : HwState) (immediate : Bool) :
    WLState × HwState :=
  let hw1 := hardware_emergency_stop hw
  let wl1 :=
    if immediate = true then
      { wl with progress := { wl.progress with state := wire_learning_state.idle } }
    else
      { wl with progress := { wl.progress with state := wire_learning_state.stopping } }
  ({ wl1 with coasting_calibration_active := false }, hw1)

/-- `wire_learning_mode_update`: overall 60 s timeout, then the state
switch. -/
def wire_learning_mode_update (wl : WLState) (hw : HwState) (now : ℕ)
    (accel_g : ℚ) : WLState × HwState × EspErr :=
  if wl.initialized = false then (wl, hw, .errInvalidState)
  else if wire_learning_state.idle.idx < wl.progress.state.idx ∧
      wl.progress.state.idx < wire_learning_state.complete.idx ∧
      WIRE_LEARNING_TIMEOUT_S * 1000000 < now - wl.progress.learning_start_time then
    ({ wl with progress := { wl.progress with state := wire_learning_state.failed } },
      hardware_emergency_stop hw, .errTimeout)
  else
    match wl.progress.state with
    | .initializing =>
        ({ wl with progress :=
            { wl.progress with state := wire_learning_state.forwardDirection } }, hw, .ok)
    | .forwardDirection =>
        let r := handle_forward_direction wl hw now accel_g
        (r.1, r.2, .ok)
    | .reverseDirection =>
        let r := handle_reverse_direction wl hw now accel_g
        (r.1, r.2, .ok)
    | .calculatingResults =>
        let r := calculate_final_results wl hw now
        (r.1, r.2.1, .ok)
    | _ => (wl, hw, .ok)

/-- `wire_learning_mode_is_active`: strictly between Idle and Complete. -/
def wire_learning_mode_is_active (wl : WLState) : Bool :=
  decide (wire_learning_state.idle.idx < wl.progress.state.idx) &&
  decide (wl.progress.state.idx < wire_learning_state.complete.idx)

/-- `wire_learning_mode_is_complete`. -/
def wire_learning_mode_is_complete (wl : WLState) : Bool :=
  decide (wl.progress.state = wire_learning_state.complete) &&
  wl.progress.learning_successful

/-- `wire_learning_mode_reset`: immediate stop, then clear everything. -/
def wire_learning_mode_reset (wl : WLState) (hw : HwState) : WLState × HwState :=
  let s := wire_learning_mode_stop wl hw true
  ({ s.1 with
      progress := wire_learning_progress.zero
      results := wire_learning_results.zero
      current_test_speed := 0
      speed_validated := false
      coasting_calibration_active := false
      detection := detection_state.reset }, s.2)

/-! Claims C9, C5 and C4 about the wire learning engine. -/

/-- The test speed recorded by `start_speed_test` is the commanded speed,
whether or not the motor command succeeded. -/
theorem start_speed_test_speed (wl : WLState) (hw : HwState) (now : ℕ) (s : ℚ) :
    (start_speed_test wl hw now s).1.current_test_speed = s := by
  unfold start_speed_test
  dsimp only
  split <;> rfl

/-- C9: during a wire-learning direction run, the current test speed is
validated exactly when at least 10 Hall pulses have been counted since the
speed change (latching the validated flag); with fewer pulses it stays
un-validated — in particular after the 3000 ms timeout; and on each
validation success `progress_to_next_speed` raises the commanded test speed
by the fixed 0.1 m/s step, clamped to and never exceeding the 1.0 m/s
ceiling. -/
theorem speed_validation_and_progression (wl : WLState) (hw : HwState) (now : ℕ) :
    ((validate_current_speed wl hw now).1 = true ↔
      LEARNING_MIN_HALL_PULSES ≤
        hardware_get_rotation_count hw - wl.hall_pulses_at_speed_start) ∧
    ((validate_current_speed wl hw now).1 = true →
      (validate_current_speed wl hw now).2.speed_validated = true) ∧
    (hardware_get_rotation_count hw - wl.hall_pulses_at_speed_start <
        LEARNING_MIN_HALL_PULSES →
      (validate_current_speed wl hw now).1 = false ∧
      (validate_current_speed wl hw now).2 = wl) ∧
    (wl.current_test_speed < WIRE_LEARNING_MAX_SPEED_MS →
      (progress_to_next_speed wl hw now).1.current_test_speed =
        min (wl.current_test_speed + WIRE_LEARNING_SPEED_INCREMENT)
          WIRE_LEARNING_MAX_SPEED_MS) ∧
    (progress_to_next_speed wl hw now).1.current_test_speed ≤
      max wl.current_test_speed WIRE_LEARNING_MAX_SPEED_MS := by
  refine ⟨?_, ?_, ?_, ?_, ?_⟩
  · unfold validate_current_speed
    dsimp only
    split
    · rename_i h
      simpa using h
    · split <;> · rename_i h _; simpa using h
  · unfold validate_current_speed
    dsimp only
    split
    · intro _; rfl
    · split <;> simp
  · intro hlt
    unfold validate_current_speed
    dsimp only
    rw [if_neg (by omega)]
    split <;> exact ⟨rfl, rfl⟩
  · intro hlt
    unfold progress_to_next_speed
    dsimp only
    rw [if_neg (not_le.mpr hlt)]
    rw [start_speed_test_speed]
    split
    · rename_i h
      rw [min_eq_right (le_of_lt h)]
    · rename_i h
      rw [min_eq_left (le_of_not_lt h)]
  · unfold progress_to_next_speed
    dsimp only
    split
    · exact le_max_left _ _
    · rw [start_speed_test_speed]
      split
      · exact le_max_right _ _
      · rename_i h
        exact le_trans (le_of_not_lt h) (le_max_right _ _)

/-- A sample wire-learning state mid-run: test speed 0.5 m/s, pulse baseline
0, test started at time 0. -/
def wlSample : WLState :=
  { WLState.boot with
    initialized := true
    progress := { wire_learning_progress.zero with
      state := wire_learning_state.forwardDirection }
    current_test_speed := 1/2 }

/-- A hardware state that has counted 12 rotations. -/
def hwPulses : HwState :=
  { hwSample with status := { hwSample.status with total_rotations := 12 } }

/-- Witness for C9: with 12 pulses since the speed change, validation
succeeds, and progression steps the 0.5 m/s test speed to 0.6 m/s. -/
theorem speed_validation_and_progression_witness :
    (validate_current_speed wlSample hwPulses 100).1 = true ∧
    (progress_to_next_speed wlSample hwPulses 100).1.current_test_speed = 3/5 := by
  have h := speed_validation_and_progression wlSample hwPulses 100
  refine ⟨h.1.mpr (by decide), ?_⟩
  rw [h.2.2.2.1 (by norm_num [wlSample, WLState.boot,
    WIRE_LEARNING_MAX_SPEED_MS, WIRE_LEARNING_START_SPEED_MS])]
  norm_num [wlSample, WLState.boot, WIRE_LEARNING_MAX_SPEED_MS,
    WIRE_LEARNING_SPEED_INCREMENT, WIRE_LEARNING_START_SPEED_MS]

/-- C5: the final wire length is the average of the forward and reverse
distances, and the run is declared successful (state Complete, results
published to the coordinator) exactly when the difference percentage
relative to that average is within the 5% tolerance; on failure the state is
Failed and nothing is published.  The hypothesis excludes the degenerate
zero-length case, where the C code divides 0 by 0. -/
theorem wire_learning_symmetry_check (wl : WLState) (hw : HwState) (now : ℕ)
    (_hpos : 0 < wl.progress.forward_distance_m + wl.progress.reverse_distance_m) :
    (calculate_final_results wl hw now).1.progress.calculated_wire_length_m =
      (wl.progress.forward_distance_m + wl.progress.reverse_distance_m) / 2 ∧
    (|wl.progress.forward_distance_m - wl.progress.reverse_distance_m| /
        ((wl.progress.forward_distance_m + wl.progress.reverse_distance_m) / 2) * 100 ≤
        WIRE_LENGTH_TOLERANCE_PERCENT →
      (calculate_final_results wl hw now).1.progress.state = .complete ∧
      (calculate_final_results wl hw now).1.results.complete = true ∧
      (calculate_final_results wl hw now).1.results.wire_length_m =
        (wl.progress.forward_distance_m + wl.progress.reverse_distance_m) / 2 ∧
      (calculate_final_results wl hw now).1.published_results =
        some (calculate_final_results wl hw now).1.results) ∧
    (¬ (|wl.progress.forward_distance_m - wl.progress.reverse_distance_m| /
        ((wl.progress.forward_distance_m + wl.progress.reverse_distance_m) / 2) * 100 ≤
        WIRE_LENGTH_TOLERANCE_PERCENT) →
      (calculate_final_results wl hw now).1.progress.state = .failed ∧
      (calculate_final_results wl hw now).1.published_results = wl.published_results ∧
      (calculate_final_results wl hw now).1.results = wl.results) := by
  unfold calculate_final_results
  dsimp only
  refine ⟨?_, ?_, ?_⟩
  · split <;> rfl
  · intro h
    rw [if_pos h]
    exact ⟨rfl, rfl, rfl, rfl⟩
  · intro h
    rw [if_neg h]
    exact ⟨rfl, rfl, rfl⟩

/-- A wire-learning state about to calculate results with forward 10.0 m and
reverse 10.3 m. -/
def wlSymOk : WLState :=
  { WLState.boot with
    initialized := true
    progress := { wire_learning_progress.zero with
      state := wire_learning_state.calculatingResults
      forward_distance_m := 10
      reverse_distance_m := 103/10 } }

/-- The same state with reverse distance 12.0 m instead. -/
def wlSymBad : WLState :=
  { wlSymOk with
    progress := { wlSymOk.progress with reverse_distance_m := 12 } }

/-- Witness for C5: forward 10.0 / reverse 10.3 (≈3% difference) completes
with wire length 10.15 m and publishes; forward 10.0 / reverse 12.0 (≈18%)
fails and publishes nothing. -/
theorem wire_learning_symmetry_check_witness :
    (calculate_final_results wlSymOk hwSample 0).1.progress.state = .complete ∧
    (calculate_final_results wlSymOk hwSample 0).1.results.wire_length_m = 203/20 ∧
    (calculate_final_results wlSymOk hwSample 0).1.results.complete = true ∧
    (calculate_final_results wlSymOk hwSample 0).1.published_results =
      some (calculate_final_results wlSymOk hwSample 0).1.results ∧
    (calculate_final_results wlSymBad hwSample 0).1.progress.state = .failed ∧
    (calculate_final_results wlSymBad hwSample 0).1.published_results = none := by
  have hOk := wire_learning_symmetry_check wlSymOk hwSample 0 (by
    norm_num [wlSymOk, WLState.boot, wire_learning_progress.zero])
  have hBad := wire_learning_symmetry_check wlSymBad hwSample 0 (by
    norm_num [wlSymBad, wlSymOk, WLState.boot, wire_learning_progress.zero])
  have hOkTol := hOk.2.1 (by
    have hab : |wlSymOk.progress.forward_distance_m -
        wlSymOk.progress.reverse_distance_m| = 3/10 := by
      rw [abs_of_nonpos (by norm_num [wlSymOk, WLState.boot, wire_learning_progress.zero])]
      norm_num [wlSymOk, WLState.boot, wire_learning_progress.zero]
    rw [hab]
    norm_num [wlSymOk, WLState.boot, wire_learning_progress.zero,
      WIRE_LENGTH_TOLERANCE_PERCENT])
  have hBadTol := hBad.2.2 (by
    norm_num [wlSymBad, wlSymOk, WLState.boot, wire_learning_progress.zero,
      WIRE_LENGTH_TOLERANCE_PERCENT])
  refine ⟨hOkTol.1, ?_, hOkTol.2.1, hOkTol.2.2.2, hBadTol.1, ?_⟩
  · rw [hOkTol.2.2.1]
    norm_num [wlSymOk, WLState.boot, wire_learning_progress.zero]
  · rw [hBadTol.2.1]
    rfl

/-- The learning-side Hall-timeout detector only fires past the 2000 ms
gap. -/
theorem detect_hall_timeout_fires_past_timeout (d : detection_state) (t : ℕ)
    (h : (wire_learning_detect_hall_timeout d t).1 = true) :
    WIRE_END_HALL_TIMEOUT_MS * 1000 < t := by
  unfold wire_learning_detect_hall_timeout at h
  dsimp only at h
  revert h
  split
  · intro _; assumption
  · intro h; exact absurd h (by simp)

/-- If the learning chain reports Impact, the impact detector fired. -/
theorem get_best_method_impact_inv (d : detection_state) (inp : sensor_inputs)
    (ts : ℚ)
    (h : (wire_learning_get_best_detection_method d inp ts).1 = .wireEndImpact) :
    wire_learning_detect_impact inp.total_accel_g = true := by
  unfold wire_learning_get_best_detection_method at h
  revert h
  split
  · intro _; assumption
  · dsimp only
    split
    · intro h; exact absurd h (by simp)
    · split <;> · intro h; exact absurd h (by simp)

/-- If the learning chain reports Hall-timeout, the pulse gap exceeded
2000 ms on this tick. -/
theorem get_best_method_hall_inv (d : detection_state) (inp : sensor_inputs)
    (ts : ℚ)
    (h : (wire_learning_get_best_detection_method d inp ts).1 = .wireEndHallTimeout) :
    WIRE_END_HALL_TIMEOUT_MS * 1000 < inp.time_since_last_pulse_us := by
  unfold wire_learning_get_best_detection_method at h
  revert h
  split
  · intro h; exact absurd h (by simp)
  · dsimp only
    split
    · intro h; exact absurd h (by simp)
    · split
      · rename_i hht
        intro _
        exact detect_hall_timeout_fires_past_timeout _ _ hht
      · intro h; exact absurd h (by simp)

/-- C4 (amended): the automatic mode's wire-end check is not the
wire-learning detector logic; it evaluates impact at the stricter 0.5 g
threshold first, then a single-shot Hall timeout with no three-consecutive
requirement, then a plain speed-drop test (target above 0.5 m/s and measured
speed below 0.2 m/s) with no rolling window.  It is at least as sensitive on
the impact and Hall-timeout signals: whenever the learning chain reports
Impact or Hall-timeout on the same tick inputs, the automatic check also
reports wire end (for any engine target speed). -/
theorem auto_wire_end_covers_learning_impact_and_hall (d : detection_state)
    (inp : sensor_inputs) (ts tgt : ℚ)
    (h : (wire_learning_get_best_detection_method d inp ts).1 = .wireEndImpact ∨
         (wire_learning_get_best_detection_method d inp ts).1 = .wireEndHallTimeout) :
    automatic_mode_is_at_wire_end inp tgt = true := by
  rcases h with h | h
  · have himp := get_best_method_impact_inv d inp ts h
    have haccel : AUTO_MODE_MAX_IMPACT_G < inp.total_accel_g := by
      have h1 := of_decide_eq_true himp
      unfold WIRE_END_IMPACT_THRESHOLD_G at h1
      unfold AUTO_MODE_MAX_IMPACT_G
      linarith
    simp [automatic_mode_is_at_wire_end, haccel]
  · have ht := get_best_method_hall_inv d inp ts h
    have htime : 2000000 < inp.time_since_last_pulse_us := by
      have h2 : WIRE_END_HALL_TIMEOUT_MS * 1000 = 2000000 := by decide
      omega
    by_cases hi : AUTO_MODE_MAX_IMPACT_G < inp.total_accel_g <;>
      simp [automatic_mode_is_at_wire_end, hi, htime]

/-- Counterexample for C4 as stated: the two wire-end checks are not the
same logic.  With no impact, a single 3 s Hall gap and full speed, the
automatic check fires while the learning chain (with a freshly reset
detector state, whose consecutive-timeout counter is 0) reports no
detection; and a 0.7 g impact fires the automatic check (threshold 0.5 g)
while the learning chain (threshold 1.0 g) again reports none. -/
theorem auto_wire_end_differs_from_learning_chain :
    automatic_mode_is_at_wire_end ⟨0, 3000000, 1⟩ 0 = true ∧
    (wire_learning_get_best_detection_method detection_state.reset
        ⟨0, 3000000, 1⟩ 0).1 = .wireEndNone ∧
    automatic_mode_is_at_wire_end ⟨7/10, 0, 1⟩ 0 = true ∧
    (wire_learning_get_best_detection_method detection_state.reset
        ⟨7/10, 0, 1⟩ 0).1 = .wireEndNone := by
  refine ⟨?_, ?_, ?_, ?_⟩ <;>
    norm_num [automatic_mode_is_at_wire_end, wire_learning_get_best_detection_method,
      wire_learning_detect_impact, wire_learning_detect_speed_drop,
      wire_learning_detect_hall_timeout, detection_state.reset,
      AUTO_MODE_MAX_IMPACT_G, WIRE_END_IMPACT_THRESHOLD_G,
      WIRE_END_SPEED_DROP_PERCENT, WIRE_END_HALL_TIMEOUT_MS]

/-- Witness for the amended C4 theorem: a 1.5 g impact makes the learning
chain report Impact, and the automatic check fires on the same inputs. -/
theorem auto_wire_end_covers_learning_witness :
    (wire_learning_get_best_detection_method detection_state.reset
        ⟨3/2, 0, 1⟩ 0).1 = .wireEndImpact ∧
    automatic_mode_is_at_wire_end ⟨3/2, 0, 1⟩ 0 = true := by
  have h1 : (wire_learning_get_best_detection_method detection_state.reset
      ⟨3/2, 0, 1⟩ 0).1 = .wireEndImpact := by
    norm_num [wire_learning_get_best_detection_method, wire_learning_detect_impact,
      WIRE_END_IMPACT_THRESHOLD_G]
  exact ⟨h1, auto_wire_end_covers_learning_impact_and_hall detection_state.reset
    ⟨3/2, 0, 1⟩ 0 0 (Or.inl h1)⟩

/-! C10: the wire-learning engine's test speed never reaches the 4 m/s
coasting trigger, so the opportunistic coasting measurement is dead code.
The proof is an invariant over all event sequences of the module. -/

/-- `start_speed_test` only touches speed-progression fields, not the
coasting observers. -/
theorem start_speed_test_flags (wl : WLState) (hw : HwState) (now : ℕ) (s : ℚ) :
    (start_speed_test wl hw now s).1.coasting_calibration_invoked =
      wl.coasting_calibration_invoked ∧
    (start_speed_test wl hw now s).1.published_coasting = wl.published_coasting := by
  unfold start_speed_test
  dsimp only
  split <;> exact ⟨rfl, rfl⟩

/-- `validate_current_speed` leaves the test speed and the coasting
observers unchanged. -/
theorem validate_current_speed_fields (wl : WLState) (hw : HwState) (now : ℕ) :
    (validate_current_speed wl hw now).2.current_test_speed = wl.current_test_speed ∧
    (validate_current_speed wl hw now).2.coasting_calibration_invoked =
      wl.coasting_calibration_invoked ∧
    (validate_current_speed wl hw now).2.published_coasting = wl.published_coasting := by
  unfold validate_current_speed
  dsimp only
  split
  · exact ⟨rfl, rfl, rfl⟩
  · split <;> exact ⟨rfl, rfl, rfl⟩

/-- `progress_to_next_speed` keeps the test speed within the 1.0 m/s ceiling
and does not touch the coasting observers. -/
theorem progress_preserves_inv (wl : WLState) (hw : HwState) (now : ℕ)
    (h1 : wl.current_test_speed ≤ 1)
    (h2 : wl.coasting_calibration_invoked = false)
    (h3 : wl.published_coasting = false) :
    (progress_to_next_speed wl hw now).1.current_test_speed ≤ 1 ∧
    (progress_to_next_speed wl hw now).1.coasting_calibration_invoked = false ∧
    (progress_to_next_speed wl hw now).1.published_coasting = false := by
  unfold progress_to_next_speed
  dsimp only
  split
  · exact ⟨h1, h2, h3⟩
  · refine ⟨?_, ?_, ?_⟩
    · rw [start_speed_test_speed]
      split
      · norm_num [WIRE_LEARNING_MAX_SPEED_MS]
      · rename_i hlt
        have hle := le_of_not_lt hlt
        simpa [WIRE_LEARNING_MAX_SPEED_MS] using hle
    · rw [(start_speed_test_flags _ _ _ _).1]; exact h2
    · rw [(start_speed_test_flags _ _ _ _).2]; exact h3

/-- `calculate_final_results` leaves the test speed and the coasting
observers unchanged. -/
theorem calculate_final_results_keeps_fields (wl : WLState) (hw : HwState) (now : ℕ) :
    (calculate_final_results wl hw now).1.current_test_speed = wl.current_test_speed ∧
    (calculate_final_results wl hw now).1.coasting_calibration_invoked =
      wl.coasting_calibration_invoked ∧
    (calculate_final_results wl hw now).1.published_coasting = wl.published_coasting := by
  unfold calculate_final_results
  dsimp only
  split <;> exact ⟨rfl, rfl, rfl⟩

/-- The forward-direction handler preserves the speed ceiling and never
reaches the coasting-calibration branch (its 4 m/s guard is unsatisfiable
under the ceiling). -/
theorem handle_forward_preserves_inv (wl : WLState) (hw : HwState) (now : ℕ) (g : ℚ)
    (h1 : wl.current_test_speed ≤ 1)
    (h2 : wl.coasting_calibration_invoked = false)
    (h3 : wl.published_coasting = false) :
    (handle_forward_direction wl hw now g).1.current_test_speed ≤ 1 ∧
    (handle_forward_direction wl hw now g).1.coasting_calibration_invoked = false ∧
    (handle_forward_direction wl hw now g).1.published_coasting = false := by
  have hv := validate_current_speed_fields wl hw now
  unfold handle_forward_direction
  dsimp only
  split
  · refine ⟨?_, ?_, ?_⟩
    · rw [start_speed_test_speed]
      norm_num [WIRE_LEARNING_START_SPEED_MS]
    · rw [(start_speed_test_flags _ _ _ _).1]; exact h2
    · rw [(start_speed_test_flags _ _ _ _).2]; exact h3
  · split
    · split
      · exact progress_preserves_inv _ hw now (by rw [hv.1]; exact h1)
          (by rw [hv.2.1]; exact h2) (by rw [hv.2.2]; exact h3)
      · split
        · exact ⟨by dsimp only; rw [hv.1]; exact h1,
            by dsimp only; rw [hv.2.1]; exact h2,
            by dsimp only; rw [hv.2.2]; exact h3⟩
        · split
          · exact ⟨by dsimp only; rw [hv.1]; exact h1,
              by dsimp only; rw [hv.2.1]; exact h2,
              by dsimp only; rw [hv.2.2]; exact h3⟩
          · have hble : ¬ ((4 : ℚ) ≤
                (validate_current_speed wl hw now).2.current_test_speed) := by
              rw [hv.1]
              intro hc
              linarith
            rw [if_neg hble]
            exact ⟨by norm_num,
              by dsimp only; rw [hv.2.1]; exact h2,
              by dsimp only; rw [hv.2.2]; exact h3⟩
    · exact ⟨h1, h2, h3⟩

/-- The reverse-direction handler preserves the same fields. -/
theorem handle_reverse_preserves_inv (wl : WLState) (hw : HwState) (now : ℕ) (g : ℚ)
    (h1 : wl.current_test_speed ≤ 1)
    (h2 : wl.coasting_calibration_invoked = false)
    (h3 : wl.published_coasting = false) :
    (handle_reverse_direction wl hw now g).1.current_test_speed ≤ 1 ∧
    (handle_reverse_direction wl hw now g).1.coasting_calibration_invoked = false ∧
    (handle_reverse_direction wl hw now g).1.published_coasting = false := by
  have hv := validate_current_speed_fields wl hw now
  unfold handle_reverse_direction
  dsimp only
  split
  · refine ⟨?_, ?_, ?_⟩
    · rw [start_speed_test_speed]
      norm_num [WIRE_LEARNING_START_SPEED_MS]
    · rw [(start_speed_test_flags _ _ _ _).1]; exact h2
    · rw [(start_speed_test_flags _ _ _ _).2]; exact h3
  · split
    · split
      · exact progress_preserves_inv _ hw now (by rw [hv.1]; exact h1)
          (by rw [hv.2.1]; exact h2) (by rw [hv.2.2]; exact h3)
      · split
        · exact ⟨by dsimp only; rw [hv.1]; exact h1,
            by dsimp only; rw [hv.2.1]; exact h2,
            by dsimp only; rw [hv.2.2]; exact h3⟩
        · exact ⟨by dsimp only; rw [hv.1]; exact h1,
            by dsimp only; rw [hv.2.1]; exact h2,
            by dsimp only; rw [hv.2.2]; exact h3⟩
    · exact ⟨h1, h2, h3⟩

/-- `wire_learning_mode_update` preserves the invariant fields. -/
theorem wl_update_preserves_inv (wl : WLState) (hw : HwState) (now : ℕ) (g : ℚ)
    (h1 : wl.current_test_speed ≤ 1)
    (h2 : wl.coasting_calibration_invoked = false)
    (h3 : wl.published_coasting = false) :
    (wire_learning_mode_update wl hw now g).1.current_test_speed ≤ 1 ∧
    (wire_learning_mode_update wl hw now g).1.coasting_calibration_invoked = false ∧
    (wire_learning_mode_update wl hw now g).1.published_coasting = false := by
  unfold wire_learning_mode_update
  dsimp only
  split
  · exact ⟨h1, h2, h3⟩
  · split
    · exact ⟨h1, h2, h3⟩
    · split
      · exact ⟨h1, h2, h3⟩
      · exact handle_forward_preserves_inv wl hw now g h1 h2 h3
      · exact handle_reverse_preserves_inv wl hw now g h1 h2 h3
      · have hc := calculate_final_results_keeps_fields wl hw now
        exact ⟨by rw [hc.1]; exact h1, by rw [hc.2.1]; exact h2,
          by rw [hc.2.2]; exact h3⟩
      · exact ⟨h1, h2, h3⟩

/-- `wire_learning_mode_start` resets the test speed to zero (or leaves the
fields alone on a rejected start). -/
theorem wl_start_preserves_inv (wl : WLState) (hw : HwState) (now : ℕ) (ok : Bool)
    (h1 : wl.current_test_speed ≤ 1)
    (h2 : wl.coasting_calibration_invoked = false)
    (h3 : wl.published_coasting = false) :
    (wire_learning_mode_start wl hw now ok).1.current_test_speed ≤ 1 ∧
    (wire_learning_mode_start wl hw now ok).1.coasting_calibration_invoked = false ∧
    (wire_learning_mode_start wl hw now ok).1.published_coasting = false := by
  unfold wire_learning_mode_start
  dsimp only
  split
  · exact ⟨h1, h2, h3⟩
  · split
    · exact ⟨h1, h2, h3⟩
    · split <;>
        (split
         · exact ⟨h1, h2, h3⟩
         · exact ⟨by norm_num, h2, h3⟩)

/-- `wire_learning_mode_stop` preserves the invariant fields. -/
theorem wl_stop_preserves_inv (wl : WLState) (hw : HwState) (imm : Bool)
    (h1 : wl.current_test_speed ≤ 1)
    (h2 : wl.coasting_calibration_invoked = false)
    (h3 : wl.published_coasting = false) :
    (wire_learning_mode_stop wl hw imm).1.current_test_speed ≤ 1 ∧
    (wire_learning_mode_stop wl hw imm).1.coasting_calibration_invoked = false ∧
    (wire_learning_mode_stop wl hw imm).1.published_coasting = false := by
  unfold wire_learning_mode_stop
  dsimp only
  split <;> exact ⟨h1, h2, h3⟩

/-- `wire_learning_mode_reset` zeroes the speed and preserves the
observers. -/
theorem wl_reset_preserves_inv (wl : WLState) (hw : HwState)
    (h1 : wl.current_test_speed ≤ 1)
    (h2 : wl.coasting_calibration_invoked = false)
    (h3 : wl.published_coasting = false) :
    (wire_learning_mode_reset wl hw).1.current_test_speed ≤ 1 ∧
    (wire_learning_mode_reset wl hw).1.coasting_calibration_invoked = false ∧
    (wire_learning_mode_reset wl hw).1.published_coasting = false := by
  have hs := wl_stop_preserves_inv wl hw true h1 h2 h3
  unfold wire_learning_mode_reset
  dsimp only
  exact ⟨by norm_num, hs.2.1, hs.2.2⟩

/-- The events that can reach the wire-learning module and its hardware
environment between boot and any observation point. -/
inductive WLEvent where
  | initModule
  | hwInit
  | start (now : ℕ) (prereq_ok : Bool)
  | stop (immediate : Bool)
  | update (now : ℕ) (accel_g : ℚ)
  | resetMode
  | hallPulse (timestamp : ℕ)
  | escTick (now : ℕ)

/-- One event of the wire-learning module / hardware pair. -/
def wl_step (s : WLState × HwState) : WLEvent → WLState × HwState
  | .initModule => (wire_learning_mode_init s.1, s.2)
  | .hwInit => (s.1, hardware_init s.2)
  | .start now ok =>
      let r := wire_learning_mode_start s.1 s.2 now ok
      (r.1, r.2.1)
  | .stop imm => wire_learning_mode_stop s.1 s.2 imm
  | .update now g =>
      let r := wire_learning_mode_update s.1 s.2 now g
      (r.1, r.2.1)
  | .resetMode => wire_learning_mode_reset s.1 s.2
  | .hallPulse t => (s.1, hall_processing_step s.2 t)
  | .escTick now => (s.1, esc_update_step s.2 now)

/-- States reachable from boot by any event sequence. -/
inductive WLReach : WLState × HwState → Prop where
  | boot : WLReach (WLState.boot, HwState.boot)
  | step (s : WLState × HwState) (e : WLEvent) : WLReach s → WLReach (wl_step s e)

/-- C10: throughout every wire-learning run the test speed never exceeds the
1.0 m/s learning ceiling, so the opportunistic coasting trigger (test speed
at least 4.0 m/s at forward completion) is never satisfied: the coasting
side-measurement is never started and no coasting data is ever published by
wire learning. -/
theorem wire_learning_never_coasts (s : WLState × HwState) (h : WLReach s) :
    s.1.current_test_speed ≤ 1 ∧
    s.1.coasting_calibration_invoked = false ∧
    s.1.published_coasting = false ∧
    ¬ ((4 : ℚ) ≤ s.1.current_test_speed) := by
  induction h with
  | boot =>
      refine ⟨?_, rfl, rfl, ?_⟩
      · norm_num [WLState.boot, WIRE_LEARNING_START_SPEED_MS]
      · norm_num [WLState.boot, WIRE_LEARNING_START_SPEED_MS]
  | step s e _ ih =>
      obtain ⟨h1, h2, h3, -⟩ := ih
      have key :
          (wl_step s e).1.current_test_speed ≤ 1 ∧
          (wl_step s e).1.coasting_calibration_invoked = false ∧
          (wl_step s e).1.published_coasting = false := by
        cases e with
        | initModule => exact ⟨h1, h2, h3⟩
        | hwInit => exact ⟨h1, h2, h3⟩
        | start now ok => exact wl_start_preserves_inv s.1 s.2 now ok h1 h2 h3
        | stop imm => exact wl_stop_preserves_inv s.1 s.2 imm h1 h2 h3
        | update now g => exact wl_update_preserves_inv s.1 s.2 now g h1 h2 h3
        | resetMode => exact wl_reset_preserves_inv s.1 s.2 h1 h2 h3
        | hallPulse t => exact ⟨h1, h2, h3⟩
        | escTick now => exact ⟨h1, h2, h3⟩
      exact ⟨key.1, key.2.1, key.2.2, fun hc => by linarith [key.1]⟩

/-- Witness for C10 at the boot state. -/
theorem wire_learning_never_coasts_witness :
    ((WLState.boot, HwState.boot) : WLState × HwState).1.current_test_speed ≤ 1 ∧
    ((WLState.boot, HwState.boot) : WLState × HwState).1.coasting_calibration_invoked = false ∧
    ((WLState.boot, HwState.boot) : WLState × HwState).1.published_coasting = false ∧
    ¬ ((4 : ℚ) ≤ ((WLState.boot, HwState.boot) : WLState × HwState).1.current_test_speed) :=
  wire_learning_never_coasts (WLState.boot, HwState.boot) WLReach.boot

/-! Mode coordinator data model (mode_coordinator.h / mode_coordinator.cpp,
first version of the file). -/

/-- SENSOR_VALIDATION_TIMEOUT_MS = 60000 -/
def SENSOR_VALIDATION_TIMEOUT_MS : ℕ := 60000

/-- MAX_SYSTEM_ERRORS = 10 -/
def MAX_SYSTEM_ERRORS : ℕ := 10

/-- ERROR_RESET_TIME_MS = 30000 -/
def ERROR_RESET_TIME_MS : ℕ := 30000

/-- The `trolley_operation_mode_t` enum. -/
inductive trolley_operation_mode where
  | tmNone
  | tmWireLearning
  | tmAutomatic
  | tmManual
deriving DecidableEq, Repr

/-- The `mode_availability_t` enum. -/
inductive mode_availability where
  | blockedSensorsNotValidated
  | blockedWireLearningRequired
  | blockedSystemError
  | available
  | active
  | stopping
deriving DecidableEq, Repr

/-- The `sensor_validation_state_t` enum. -/
inductive sensor_validation_state where
  | notStarted
  | inProgress
  | hallPending
  | accelPending
  | complete
  | failed
deriving DecidableEq, Repr

/-- Numeric value of a `sensor_validation_state_t`. -/
def sensor_validation_state.idx : sensor_validation_state → ℕ
  | .notStarted => 0
  | .inProgress => 1
  | .hallPending => 2
  | .accelPending => 3
  | .complete => 4
  | .failed => 5

/-- The `coasting_data_t` structure shared through the coordinator. -/
structure coasting_data where
  calibrated : Bool
  coasting_distance_m : ℚ
  coast_start_distance_m : ℚ
  coast_time_ms : ℕ
  decel_rate_ms2 : ℚ
deriving DecidableEq, Repr

/-- The all-zero `coasting_data_t`. -/
def coasting_data.zero : coasting_data := ⟨false, 0, 0, 0, 0⟩

/-- The fields of `sensor_health_t` that the coordinator and the mode
engines read on an update tick (produced by the sensor_health module, which
is outside the embedded core; its outputs are inputs here). -/
structure sensor_health_inputs where
  wheel_rotation_detected : Bool
  trolley_shake_detected : Bool
  system_ready : Bool
  total_accel_g : ℚ
deriving DecidableEq, Repr

/-- The file-static state of mode_coordinator.cpp: the g_mode_status fields
the embedded functions touch (message strings elided), plus the separate
globals `g_sensor_validation_start_time`, `g_hall_validation_user_confirmed`,
`g_accel_validation_user_confirmed`, `g_wire_learning_data`,
`g_coasting_data`, `g_error_count` and `g_last_error_reset_time`. -/
structure CoordState where
  initialized : Bool
  current_mode : trolley_operation_mode
  previous_mode : trolley_operation_mode
  mode_start_time : ℕ
  wire_learning_availability : mode_availability
  automatic_availability : mode_availability
  manual_availability : mode_availability
  sensor_validation_state : sensor_validation_state
  sensors_validated : Bool
  hall_validation_complete : Bool
  accel_validation_complete : Bool
  status_wire_learning : wire_learning_results
  status_coasting : coasting_data
  auto_cycle_count : ℕ
  auto_cycle_interrupted : Bool
  system_healthy : Bool
  last_error_time : ℕ
  validation_start_time : ℕ
  hall_user_confirmed : Bool
  accel_user_confirmed : Bool
  wire_learning_data : wire_learning_results
  coasting_data : coasting_data
  error_count : ℕ
  last_error_reset_time : ℕ
deriving DecidableEq, Repr

/-- The coordinator state right after `mode_coordinator_init` (the struct is
zeroed, the current mode is None, validation is NotStarted and the system is
marked healthy; persisted NVS data is absent on a fresh device). -/
def CoordState.afterInit : CoordState where
  initialized := true
  current_mode := .tmNone
  previous_mode := .tmNone
  mode_start_time := 0
  wire_learning_availability := .blockedSensorsNotValidated
  automatic_availability := .blockedSensorsNotValidated
  manual_availability := .blockedSensorsNotValidated
  sensor_validation_state := .notStarted
  sensors_validated := false
  hall_validation_complete := false
  accel_validation_complete := false
  status_wire_learning := wire_learning_results.zero
  status_coasting := coasting_data.zero
  auto_cycle_count := 0
  auto_cycle_interrupted := false
  system_healthy := true
  last_error_time := 0
  validation_start_time := 0
  hall_user_confirmed := false
  accel_user_confirmed := false
  wire_learning_data := wire_learning_results.zero
  coasting_data := coasting_data.zero
  error_count := 0
  last_error_reset_time := 0

/-- `update_sensor_validation_state` (mode_coordinator.cpp lines 52-112):
the validation state machine switch, followed by the 60 s timeout check.
In the AccelPending state the transition to Complete requires only the user
confirmation flag — the shake detection input merely changes the displayed
message. -/
def update_sensor_validation_state (c : CoordState)
    (inp : sensor_health_inputs) (now : ℕ) : CoordState :=
  let c1 :=
    match c.sensor_validation_state with
    | .inProgress =>
        if inp.wheel_rotation_detected = true ∧ c.hall_user_confirmed = false then
          { c with sensor_validation_state := .hallPending }
        else c
    | .hallPending =>
        if c.hall_user_confirmed = true then
          { c with
              sensor_validation_state := .accelPending
              hall_validation_complete := true }
        else c
    | .accelPending =>
        if inp.trolley_shake_detected = true ∧ c.accel_user_confirmed = false then c
        else if c.accel_user_confirmed = true then
          { c with
              sensor_validation_state := .complete
              accel_validation_complete := true
              sensors_validated := true }
        else c
    | _ => c
  if sensor_validation_state.notStarted.idx < c1.sensor_validation_state.idx ∧
      c1.sensor_validation_state.idx < sensor_validation_state.complete.idx ∧
      SENSOR_VALIDATION_TIMEOUT_MS * 1000 < now - c.validation_start_time then
    { c1 with sensor_validation_state := .failed }
  else c1

/-- `mode_coordinator_start_sensor_validation`. -/
def mode_coordinator_start_sensor_validation (c : CoordState) (now : ℕ) :
    CoordState :=
  { c with
    sensor_validation_state := .inProgress
    validation_start_time := now
    hall_user_confirmed := false
    accel_user_confirmed := false
    sensors_validated := false
    hall_validation_complete := false
    accel_validation_complete := false }

/-- `mode_coordinator_confirm_hall_validation`: only accepted in the
HallPending state. -/
def mode_coordinator_confirm_hall_validation (c : CoordState) :
    CoordState × EspErr :=
  if c.sensor_validation_state ≠ .hallPending then (c, .errInvalidState)
  else ({ c with hall_user_confirmed := true }, .ok)

/-- `mode_coordinator_confirm_accel_validation`: only accepted in the
AccelPending state; it does not consult the shake detection. -/
def mode_coordinator_confirm_accel_validation (c : CoordState) :
    CoordState × EspErr :=
  if c.sensor_validation_state ≠ .accelPending then (c, .errInvalidState)
  else ({ c with accel_user_confirmed := true }, .ok)

/-- `mode_coordinator_reset_sensor_validation`. -/
def mode_coordinator_reset_sensor_validation (c : CoordState) : CoordState :=
  { c with
    sensor_validation_state := .notStarted
    hall_user_confirmed := false
    accel_user_confirmed := false
    sensors_validated := false
    hall_validation_complete := false
    accel_validation_complete := false }

/-! C1: the two-step sensor-validation handshake.  History observers (which
of the physical detections were ever reported, and which confirmation calls
were ever accepted) are carried next to the coordinator state; they are
write-only and feed nothing back into the embedded transitions. -/

/-- History observers for the validation machine. -/
structure ValHistory where
  ever_rotation_detected : Bool
  ever_shake_detected : Bool
  hall_confirm_accepted : Bool
  accel_confirm_accepted : Bool
deriving DecidableEq, Repr

/-- The events that drive the sensor-validation state. -/
inductive ValEvent where
  | startValidation (now : ℕ)
  | update (inp : sensor_health_inputs) (now : ℕ)
  | confirmHall
  | confirmAccel
  | resetValidation

/-- One validation event, with the history observers updated alongside. -/
def val_step (s : CoordState × ValHistory) : ValEvent → CoordState × ValHistory
  | .startValidation now => (mode_coordinator_start_sensor_validation s.1 now, s.2)
  | .update inp now =>
      (update_sensor_validation_state s.1 inp now,
       { s.2 with
          ever_rotation_detected :=
            s.2.ever_rotation_detected || inp.wheel_rotation_detected
          ever_shake_detected :=
            s.2.ever_shake_detected || inp.trolley_shake_detected })
  | .confirmHall =>
      let r := mode_coordinator_confirm_hall_validation s.1
      (r.1, { s.2 with
        hall_confirm_accepted := s.2.hall_confirm_accepted || decide (r.2 = .ok) })
  | .confirmAccel =>
      let r := mode_coordinator_confirm_accel_validation s.1
      (r.1, { s.2 with
        accel_confirm_accepted := s.2.accel_confirm_accepted || decide (r.2 = .ok) })
  | .resetValidation => (mode_coordinator_reset_sensor_validation s.1, s.2)

/-- Validation states reachable from the freshly initialized coordinator. -/
inductive ValReach : CoordState × ValHistory → Prop where
  | init : ValReach (CoordState.afterInit, ⟨false, false, false, false⟩)
  | step (s : CoordState × ValHistory) (e : ValEvent) : ValReach s → ValReach (val_step s e)

/-- The inductive invariant of the validation machine. -/
def val_inv (s : CoordState × ValHistory) : Prop :=
  (s.1.hall_user_confirmed = true → s.2.hall_confirm_accepted = true) ∧
  (s.1.accel_user_confirmed = true → s.2.accel_confirm_accepted = true) ∧
  ((s.1.sensor_validation_state = .hallPending ∨
    s.1.sensor_validation_state = .accelPending ∨
    s.1.sensor_validation_state = .complete) → s.2.ever_rotation_detected = true) ∧
  ((s.1.sensor_validation_state = .accelPending ∨
    s.1.sensor_validation_state = .complete) → s.2.hall_confirm_accepted = true) ∧
  (s.1.sensors_validated = true →
    s.2.ever_rotation_detected = true ∧
    s.2.hall_confirm_accepted = true ∧
    s.2.accel_confirm_accepted = true)

/-- How one `update_sensor_validation_state` call can move the state: the
confirmation flags are untouched; HallPending arises only from a reported
wheel rotation (or was already there); AccelPending only from a confirmed
HallPending; Complete and the validated flag only from a confirmed
AccelPending. -/
theorem update_sensor_validation_cases (c : CoordState)
    (inp : sensor_health_inputs) (now : ℕ) :
    (update_sensor_validation_state c inp now).hall_user_confirmed =
      c.hall_user_confirmed ∧
    (update_sensor_validation_state c inp now).accel_user_confirmed =
      c.accel_user_confirmed ∧
    ((update_sensor_validation_state c inp now).sensor_validation_state = .hallPending →
      c.sensor_validation_state = .hallPending ∨
      (c.sensor_validation_state = .inProgress ∧ inp.wheel_rotation_detected = true)) ∧
    ((update_sensor_validation_state c inp now).sensor_validation_state = .accelPending →
      c.sensor_validation_state = .accelPending ∨
      (c.sensor_validation_state = .hallPending ∧ c.hall_user_confirmed = true)) ∧
    ((update_sensor_validation_state c inp now).sensor_validation_state = .complete →
      c.sensor_validation_state = .complete ∨
      (c.sensor_validation_state = .accelPending ∧ c.accel_user_confirmed = true)) ∧
    ((update_sensor_validation_state c inp now).sensors_validated = true →
      c.sensors_validated = true ∨
      (c.sensor_validation_state = .accelPending ∧ c.accel_user_confirmed = true)) := by
  unfold update_sensor_validation_state
  cases hst : c.sensor_validation_state <;>
    simp only [hst] <;>
    (repeat' split) <;>
    simp_all

/-- The invariant holds in every reachable validation state. -/
theorem val_inv_reachable (s : CoordState × ValHistory) (h : ValReach s) :
    val_inv s := by
  induction h with
  | init => exact ⟨by simp [CoordState.afterInit], by simp [CoordState.afterInit],
      by simp [CoordState.afterInit], by simp [CoordState.afterInit],
      by simp [CoordState.afterInit]⟩
  | step s e _ ih =>
      obtain ⟨i1, i2, i3, i4, i5⟩ := ih
      cases e with
      | startValidation now =>
          refine ⟨by simp [val_step, mode_coordinator_start_sensor_validation],
            by simp [val_step, mode_coordinator_start_sensor_validation], ?_, ?_,
            by simp [val_step, mode_coordinator_start_sensor_validation]⟩ <;>
          · simp only [val_step, mode_coordinator_start_sensor_validation]
            intro hc
            rcases hc with hc | hc | hc <;> simp at hc
      | resetValidation =>
          refine ⟨by simp [val_step, mode_coordinator_reset_sensor_validation],
            by simp [val_step, mode_coordinator_reset_sensor_validation], ?_, ?_,
            by simp [val_step, mode_coordinator_reset_sensor_validation]⟩
          · simp only [val_step, mode_coordinator_reset_sensor_validation]
            intro hc
            rcases hc with hc | hc | hc <;> simp at hc
          · simp only [val_step, mode_coordinator_reset_sensor_validation]
            intro hc
            rcases hc with hc | hc <;> simp at hc
      | confirmHall =>
          simp only [val_step, mode_coordinator_confirm_hall_validation]
          split
          · rename_i hne
            refine ⟨?_, ?_, ?_, ?_, ?_⟩ <;> dsimp only
            · intro h; simp [i1 h]
            · exact i2
            · exact i3
            · intro h; simp [i4 h]
            · intro h
              obtain ⟨a, b, c⟩ := i5 h
              exact ⟨a, by simp [b], c⟩
          · rename_i heq
            have hstate : s.1.sensor_validation_state = .hallPending := by
              by_contra hc
              exact heq hc
            refine ⟨?_, ?_, ?_, ?_, ?_⟩ <;> dsimp only
            · intro _; simp
            · exact i2
            · intro _; exact i3 (Or.inl hstate)
            · intro h; simp [i4 h]
            · intro h
              obtain ⟨a, b, c⟩ := i5 h
              exact ⟨a, by simp [b], c⟩
      | confirmAccel =>
          simp only [val_step, mode_coordinator_confirm_accel_validation]
          split
          · rename_i hne
            refine ⟨?_, ?_, ?_, ?_, ?_⟩ <;> dsimp only
            · exact i1
            · intro h; simp [i2 h]
            · exact i3
            · exact i4
            · intro h
              obtain ⟨a, b, c⟩ := i5 h
              exact ⟨a, b, by simp [c]⟩
          · rename_i heq
            have hstate : s.1.sensor_validation_state = .accelPending := by
              by_contra hc
              exact heq hc
            refine ⟨?_, ?_, ?_, ?_, ?_⟩ <;> dsimp only
            · exact i1
            · intro _; simp
            · exact i3
            · intro _; exact i4 (Or.inl hstate)
            · intro h
              obtain ⟨a, b, c⟩ := i5 h
              exact ⟨a, b, by simp [c]⟩
      | update inp now =>
          have hc := update_sensor_validation_cases s.1 inp now
          obtain ⟨hhu, hau, hhp, hap, hcp, hsv⟩ := hc
          refine ⟨?_, ?_, ?_, ?_, ?_⟩ <;> simp only [val_step]
          · intro h
            exact i1 (hhu ▸ h)
          · intro h
            exact i2 (hau ▸ h)
          · intro h
            rcases h with h | h | h
            · rcases hhp h with h2 | h2
              · simp [i3 (Or.inl h2)]
              · simp [h2.2]
            · rcases hap h with h2 | h2
              · simp [i3 (Or.inr (Or.inl h2))]
              · simp [i3 (Or.inl h2.1)]
            · rcases hcp h with h2 | h2
              · simp [i3 (Or.inr (Or.inr h2))]
              · simp [i3 (Or.inr (Or.inl h2.1))]
          · intro h
            rcases h with h | h
            · rcases hap h with h2 | h2
              · exact i4 (Or.inl h2)
              · exact i1 h2.2
            · rcases hcp h with h2 | h2
              · exact i4 (Or.inr h2)
              · exact i4 (Or.inl h2.1)
          · intro h
            rcases hsv h with h2 | h2
            · obtain ⟨a, b, cc⟩ := i5 h2
              exact ⟨by simp [a], b, cc⟩
            · exact ⟨by simp [i3 (Or.inr (Or.inl h2.1))], i4 (Or.inl h2.1), i2 h2.2⟩

/-- Folding events preserves reachability. -/
theorem valReach_foldl (es : List ValEvent) (s : CoordState × ValHistory)
    (h : ValReach s) : ValReach (es.foldl val_step s) := by
  induction es generalizing s with
  | nil => exact h
  | cons e es ih => exact ih _ (ValReach.step s e h)

/-- An event sequence in which the wheel rotation is detected and both
confirmations are pressed, but the trolley is never shaken. -/
def valTrace : List ValEvent :=
  [.startValidation 0,
   .update ⟨true, false, true, 0⟩ 1,
   .confirmHall,
   .update ⟨false, false, true, 0⟩ 2,
   .confirmAccel,
   .update ⟨false, false, true, 0⟩ 3]

/-- The state reached by `valTrace` from the initialized coordinator. -/
def valRun : CoordState × ValHistory :=
  valTrace.foldl val_step (CoordState.afterInit, ⟨false, false, false, false⟩)

/-- Counterexample for C1 as stated: after `valTrace`, `sensors_validated`
is true although `trolley_shake_detected` was never reported — the
accelerometer confirmation is accepted in the AccelPending state regardless
of the physical shake detection, so a physical accelerometer detection is
not required for `sensors_validated`. -/
theorem sensors_validated_without_shake :
    valRun.1.sensors_validated = true ∧
    valRun.2.ever_shake_detected = false := by
  decide

/-- C1 (amended): in every reachable validation state, `sensors_validated`
is true only if the wheel rotation was physically detected at some update,
the Hall confirmation call was accepted (which is only possible in the
HallPending state, itself entered only after a rotation was detected) and
the accelerometer confirmation call was accepted; a single confirmation, or
detections without the confirmations, never set it.  The shake detection,
however, is not required (see the counterexample). -/
theorem sensors_validated_requires_rotation_and_confirms
    (s : CoordState × ValHistory) (h : ValReach s)
    (hv : s.1.sensors_validated = true) :
    s.2.ever_rotation_detected = true ∧
    s.2.hall_confirm_accepted = true ∧
    s.2.accel_confirm_accepted = true :=
  (val_inv_reachable s h).2.2.2.2 hv

/-- Witness for the amended C1 theorem at the concrete `valRun` state. -/
theorem sensors_validated_requires_confirms_witness :
    valRun.2.ever_rotation_detected = true ∧
    valRun.2.hall_confirm_accepted = true ∧
    valRun.2.accel_confirm_accepted = true :=
  sensors_validated_requires_rotation_and_confirms valRun
    (valReach_foldl valTrace _ ValReach.init) (by decide)

/-! Automatic cycling engine (automatic_mode.h / automatic_mode.cpp). -/

/-- AUTO_MODE_MAX_SPEED_MS = 5.0f, the automatic cruise speed. -/
def AUTO_MODE_MAX_SPEED_MS : ℚ := 5

/-- AUTO_MODE_START_SPEED_MS = 0.1f -/
def AUTO_MODE_START_SPEED_MS : ℚ := 1 / 10

/-- AUTO_MODE_ACCEL_RATE_MS2 = 0.5f -/
def AUTO_MODE_ACCEL_RATE_MS2 : ℚ := 1 / 2

/-- AUTO_COASTING_CALIBRATION_SPEED = 5.0f -/
def AUTO_COASTING_CALIBRATION_SPEED : ℚ := 5

/-- AUTO_COASTING_SAFETY_MARGIN_M = 2.0f -/
def AUTO_COASTING_SAFETY_MARGIN_M : ℚ := 2

/-- AUTO_COASTING_MAX_DISTANCE_M = 50.0f -/
def AUTO_COASTING_MAX_DISTANCE_M : ℚ := 50

/-- AUTO_COASTING_MIN_DISTANCE_M = 0.5f -/
def AUTO_COASTING_MIN_DISTANCE_M : ℚ := 1 / 2

/-- AUTO_MODE_WIRE_END_APPROACH_MS = 1.0f -/
def AUTO_MODE_WIRE_END_APPROACH_MS : ℚ := 1

/-- COAST_DETECTION_SPEED_MS = 0.1f (automatic_mode.cpp) -/
def COAST_DETECTION_SPEED_MS : ℚ := 1 / 10

/-- AUTO_MODE_MIN_WIRE_LENGTH_M = 2.0f -/
def AUTO_MODE_MIN_WIRE_LENGTH_M : ℚ := 2

/-- The `automatic_mode_state_t` enum, in declaration order. -/
inductive automatic_mode_state where
  | idle
  | initializing
  | armingEsc
  | accelerating
  | cruising
  | coastingCalibration
  | coasting
  | wireEndApproach
  | directionChange
  | cycleComplete
  | stoppingGraceful
  | stoppingInterrupted
  | errorState
  | complete
deriving DecidableEq, Repr

/-- Numeric value of an `automatic_mode_state_t`. -/
def automatic_mode_state.idx : automatic_mode_state → ℕ
  | .idle => 0
  | .initializing => 1
  | .armingEsc => 2
  | .accelerating => 3
  | .cruising => 4
  | .coastingCalibration => 5
  | .coasting => 6
  | .wireEndApproach => 7
  | .directionChange => 8
  | .cycleComplete => 9
  | .stoppingGraceful => 10
  | .stoppingInterrupted => 11
  | .errorState => 12
  | .complete => 13

/-- The `coasting_calibration_t` structure. -/
structure coasting_calibration where
  calibrated : Bool
  calibration_speed_ms : ℚ
  coasting_distance_m : ℚ
  coasting_time_ms : ℕ
  deceleration_rate_ms2 : ℚ
  coast_start_distance_m : ℚ
  calibration_rotations : ℕ
  calibration_successful : Bool
deriving DecidableEq, Repr

/-- The all-zero `coasting_calibration_t`. -/
def coasting_calibration.zero : coasting_calibration :=
  ⟨false, 0, 0, 0, 0, 0, 0, false⟩

/-- The `cycle_data_t` structure. -/
structure cycle_data where
  cycle_number : ℕ
  forward_runs : ℕ
  reverse_runs : ℕ
  current_direction_forward : Bool
  cycle_start_time : ℕ
  run_start_time : ℕ
  run_start_rotations : ℕ
  max_speed_achieved : ℚ
  total_distance_m : ℕ
deriving DecidableEq, Repr

/-- The all-zero `cycle_data_t`. -/
def cycle_data.zero : cycle_data := ⟨0, 0, 0, false, 0, 0, 0, 0, 0⟩

/-- The file-static state of automatic_mode.cpp: the fields of
`g_auto_progress` that the embedded functions touch (message strings
elided), the speed-control and coasting globals, the user-interruption
globals and the function-static `calibration_motor_stopped` of
`automatic_mode_update_coasting_calibration`. -/
structure AutoState where
  initialized : Bool
  state : automatic_mode_state
  state_start_time : ℕ
  mode_start_time : ℕ
  current_target_speed : ℚ
  acceleration_rate : ℚ
  esc_auto_armed : Bool
  coasting : coasting_calibration
  coasting_active : Bool
  cycle_data : cycle_data
  user_interrupted : Bool
  finishing_current_run : Bool
  wire_length_m : ℚ
  current_position_m : ℚ
  distance_to_wire_end_m : ℚ
  current_acceleration_target : ℚ
  acceleration_start_time : ℕ
  acceleration_start_rotations : ℕ
  coasting_in_progress : Bool
  coasting_start_time : ℕ
  coasting_start_rotations : ℕ
  coasting_start_speed : ℚ
  user_interruption_requested : Bool
  interruption_request_time : ℕ
  calibration_motor_stopped : Bool
deriving DecidableEq, Repr

/-- The boot value of the automatic-mode globals. -/
def AutoState.boot : AutoState where
  initialized := false
  state := .idle
  state_start_time := 0
  mode_start_time := 0
  current_target_speed := 0
  acceleration_rate := AUTO_MODE_ACCEL_RATE_MS2
  esc_auto_armed := false
  coasting := coasting_calibration.zero
  coasting_active := false
  cycle_data := cycle_data.zero
  user_interrupted := false
  finishing_current_run := false
  wire_length_m := 0
  current_position_m := 0
  distance_to_wire_end_m := 0
  current_acceleration_target := 0
  acceleration_start_time := 0
  acceleration_start_rotations := 0
  coasting_in_progress := false
  coasting_start_time := 0
  coasting_start_rotations := 0
  coasting_start_speed := 0
  user_interruption_requested := false
  interruption_request_time := 0
  calibration_motor_stopped := false

/-- `automatic_mode_init`: zero the progress and mark initialized. -/
def automatic_mode_init (a : AutoState) : AutoState :=
  { AutoState.boot with
    initialized := true
    acceleration_rate := 0
    calibration_motor_stopped := a.calibration_motor_stopped }

/-- `mode_coordinator_get_wire_learning_results`: NULL unless complete. -/
def mode_coordinator_get_wire_learning_results (c : CoordState) :
    Option wire_learning_results :=
  if c.wire_learning_data.complete = true then some c.wire_learning_data else none

/-- `mode_coordinator_set_coasting_data`: copy into the coordinator's global
and its status snapshot (NVS persistence is external). -/
def mode_coordinator_set_coasting_data (c : CoordState) (cd : coasting_data) :
    CoordState :=
  { c with coasting_data := cd, status_coasting := cd }

/-- `mode_coordinator_set_wire_learning_results`: copy into the
coordinator's global and its status snapshot. -/
def mode_coordinator_set_wire_learning_results (c : CoordState)
    (r : wire_learning_results) : CoordState :=
  { c with wire_learning_data := r, status_wire_learning := r }

/-- `mode_coordinator_are_sensors_validated`. -/
def mode_coordinator_are_sensors_validated (c : CoordState) : Bool :=
  c.sensors_validated

/-- `automatic_mode_validate_prerequisites`: sensors validated, wire
learning complete, wire long enough. -/
def automatic_mode_validate_prerequisites (c : CoordState) : EspErr :=
  if mode_coordinator_are_sensors_validated c = false then .errInvalidState
  else
    match mode_coordinator_get_wire_learning_results c with
    | none => .errInvalidState
    | some wd =>
        if wd.wire_length_m < AUTO_MODE_MIN_WIRE_LENGTH_M then .errInvalidSize
        else .ok

/-- `automatic_mode_auto_arm_esc`. -/
def automatic_mode_auto_arm_esc (a : AutoState) (hw : HwState) :
    AutoState × HwState × EspErr :=
  if hw.status.esc_armed = true then ({ a with esc_auto_armed := true }, hw, .ok)
  else
    let r := hardware_esc_arm hw
    if r.2 = .ok then ({ a with esc_auto_armed := true }, r.1, .ok)
    else (a, r.1, r.2)

/-- `automatic_mode_auto_disarm_esc`. -/
def automatic_mode_auto_disarm_esc (a : AutoState) (hw : HwState) :
    AutoState × HwState × EspErr :=
  let r := hardware_esc_disarm hw
  ({ a with esc_auto_armed := false }, r.1, r.2)

/-- `automatic_mode_start`: validate prerequisites, load the wire data, move
through Initializing to ArmingEsc and auto-arm; an arming failure leaves the
Error state. -/
def automatic_mode_start (a : AutoState) (hw : HwState) (c : CoordState)
    (now : ℕ) : AutoState × HwState × EspErr :=
  if a.initialized = false then (a, hw, .errInvalidState)
  else
    let pre := automatic_mode_validate_prerequisites c
    if pre ≠ .ok then (a, hw, pre)
    else
      match mode_coordinator_get_wire_learning_results c with
      | none => (a, hw, .errInvalidState)
      | some wd =>
          let a1 := { a with
            state := automatic_mode_state.initializing
            mode_start_time := now
            wire_length_m := wd.wire_length_m
            user_interrupted := false
            finishing_current_run := false
            user_interruption_requested := false }
          let a2 := { a1 with state := automatic_mode_state.armingEsc }
          let arm := automatic_mode_auto_arm_esc a2 hw
          if arm.2.2 ≠ .ok then
            ({ arm.1 with state := automatic_mode_state.errorState }, arm.2.1, arm.2.2)
          else (arm.1, arm.2.1, .ok)

/-- `automatic_mode_stop_graceful`: flags only; the engine finishes the
current run. -/
def automatic_mode_stop_graceful (a : AutoState) (now : ℕ) : AutoState :=
  { a with
    user_interruption_requested := true
    interruption_request_time := now
    finishing_current_run := true }

/-- `automatic_mode_interrupt`: cut power immediately, enter
StoppingInterrupted and auto-disarm the ESC. -/
def automatic_mode_interrupt (a : AutoState) (hw : HwState) :
    AutoState × HwState :=
  let hw1 := hardware_emergency_stop hw
  let a1 := { a with
    state := automatic_mode_state.stoppingInterrupted
    user_interrupted := true
    finishing_current_run := false
    user_interruption_requested := true }
  let d := automatic_mode_auto_disarm_esc a1 hw1
  (d.1, d.2.1)

/-- `automatic_mode_is_active`: strictly between Idle and Complete — the
stopping and error states included. -/
def automatic_mode_is_active (a : AutoState) : Bool :=
  decide (automatic_mode_state.idle.idx < a.state.idx) &&
  decide (a.state.idx < automatic_mode_state.complete.idx)

/-- `automatic_mode_accelerate_to_speed`: clamp the target to
AUTO_MODE_MAX_SPEED_MS, record the acceleration baseline, and command the
start speed. -/
def automatic_mode_accelerate_to_speed (a : AutoState) (hw : HwState)
    (now : ℕ) (target_speed : ℚ) : AutoState × HwState × EspErr :=
  let target := if AUTO_MODE_MAX_SPEED_MS < target_speed then AUTO_MODE_MAX_SPEED_MS
    else target_speed
  let a1 := { a with
    current_acceleration_target := target
    acceleration_start_time := now
    acceleration_start_rotations := hardware_get_rotation_count hw }
  let cmd := hardware_set_motor_speed hw AUTO_MODE_START_SPEED_MS
    a.cycle_data.current_direction_forward
  if cmd.2 ≠ .ok then (a1, cmd.1, cmd.2)
  else
    ({ a1 with
        current_target_speed := AUTO_MODE_START_SPEED_MS
        acceleration_rate := AUTO_MODE_ACCEL_RATE_MS2 }, cmd.1, .ok)

/-- `automatic_mode_maintain_cruise_speed`: command the full 5 m/s cruise
speed whenever the measured speed is more than 0.5 m/s away from it; always
returns ESP_OK, ignoring the hardware command's result. -/
def automatic_mode_maintain_cruise_speed (a : AutoState) (hw : HwState) :
    AutoState × HwState × EspErr :=
  let current_speed := hardware_get_current_speed hw
  let target_speed := AUTO_MODE_MAX_SPEED_MS
  let hw1 :=
    if (1 : ℚ)/2 < |current_speed - target_speed| then
      (hardware_set_motor_speed hw target_speed
        a.cycle_data.current_direction_forward).1
    else hw
  ({ a with current_target_speed := target_speed }, hw1, .ok)

/-- `automatic_mode_handle_wire_end_reached`: stop the motor. -/
def automatic_mode_handle_wire_end_reached (a : AutoState) (hw : HwState) :
    AutoState × HwState :=
  (a, (hardware_set_motor_speed hw 0 a.cycle_data.current_direction_forward).1)

/-- `handle_coasting_state`: if the wire-end check fires or the speed fell
below the coast-detection threshold, enter WireEndApproach, command the
approach speed, and (after the brief approach delay) stop the motor. -/
def handle_coasting_state (a : AutoState) (hw : HwState) (now : ℕ)
    (accel_g : ℚ) : AutoState × HwState :=
  let current_speed := hardware_get_current_speed hw
  let inp : sensor_inputs :=
    ⟨accel_g, hardware_get_time_since_last_hall_pulse hw now, current_speed⟩
  if automatic_mode_is_at_wire_end inp a.current_target_speed = true ∨
      current_speed < COAST_DETECTION_SPEED_MS then
    let a1 := { a with
      coasting_in_progress := false
      state := automatic_mode_state.wireEndApproach }
    let hw1 := (hardware_set_motor_speed hw AUTO_MODE_WIRE_END_APPROACH_MS
      a.cycle_data.current_direction_forward).1
    automatic_mode_handle_wire_end_reached a1 hw1
  else (a, hw)

/-- `automatic_mode_update_coasting_calibration`: wait for the calibration
speed, cut power once, wait for the trolley to stop, then record and
validate the coasting numbers and publish them to the coordinator. -/
def automatic_mode_update_coasting_calibration (a : AutoState) (hw : HwState)
    (c : CoordState) (now : ℕ) (speed : ℚ) :
    AutoState × HwState × CoordState × EspErr :=
  if speed < AUTO_COASTING_CALIBRATION_SPEED - 1/5 then (a, hw, c, .ok)
  else if a.calibration_motor_stopped = false then
    let hw1 := (hardware_set_motor_speed hw 0
      a.cycle_data.current_direction_forward).1
    ({ a with
        coasting_start_time := now
        coasting_start_rotations := hardware_get_rotation_count hw
        coasting_start_speed := speed
        calibration_motor_stopped := true }, hw1, c, .ok)
  else if COAST_DETECTION_SPEED_MS < speed then (a, hw, c, .ok)
  else
    let rot := hardware_get_rotation_count hw - a.coasting_start_rotations
    let dist := hardware_rotations_to_distance rot
    let timeMs := (now - a.coasting_start_time) / 1000
    let decel := a.coasting_start_speed / ((timeMs : ℚ) / 1000)
    let cc : coasting_calibration := {
      calibrated := true
      calibration_speed_ms := a.coasting_start_speed
      coasting_distance_m := dist
      coasting_time_ms := timeMs
      deceleration_rate_ms2 := decel
      coast_start_distance_m := dist + AUTO_COASTING_SAFETY_MARGIN_M
      calibration_rotations := rot
      calibration_successful := true }
    if dist < AUTO_COASTING_MIN_DISTANCE_M ∨ AUTO_COASTING_MAX_DISTANCE_M < dist then
      ({ a with coasting := { cc with calibration_successful := false } },
        hw, c, .errInvalidSize)
    else
      let cd : coasting_data :=
        ⟨true, dist, dist + AUTO_COASTING_SAFETY_MARGIN_M, timeMs, decel⟩
      ({ a with coasting := cc, calibration_motor_stopped := false },
        hw, mode_coordinator_set_coasting_data c cd, .ok)

/-- `automatic_mode_update`: only the Coasting and CoastingCalibration
states have update work; every other state (the stopping states included)
is left unchanged by an update cycle. -/
def automatic_mode_update (a : AutoState) (hw : HwState) (c : CoordState)
    (now : ℕ) (accel_g : ℚ) : AutoState × HwState × CoordState × EspErr :=
  if a.initialized = false ∨ a.state = automatic_mode_state.idle then
    (a, hw, c, .ok)
  else
    match a.state with
    | .coasting =>
        let r := handle_coasting_state a hw now accel_g
        (r.1, r.2, c, .ok)
    | .coastingCalibration =>
        automatic_mode_update_coasting_calibration a hw c now
          (hardware_get_current_speed hw)
    | _ => (a, hw, c, .ok)

/-! C3: the 5 m/s cruise of the automatic engine can never reach the
hardware, whose speed limit is 2 m/s. -/

/-- Any out-of-limit speed command leaves the hardware target untouched and
returns an error value (invalid-state when uninitialized, invalid-argument
otherwise). -/
theorem set_motor_speed_above_limit_never_writes (st : HwState) (s : ℚ)
    (dir : Bool) (hs : MAX_SPEED_MS < s) :
    (hardware_set_motor_speed st s dir).1.status.target_speed_ms =
      st.status.target_speed_ms ∧
    (hardware_set_motor_speed st s dir).2 ≠ EspErr.ok := by
  unfold hardware_set_motor_speed
  have hv := is_speed_valid_false_of_out_of_range s (Or.inr hs)
  split
  · exact ⟨rfl, by simp⟩
  · exact ⟨rfl, by simp⟩

/-- C3: the automatic engine's cruise and coasting-calibration speed of
5 m/s exceeds the hardware limit MAX_SPEED_MS = 2 m/s, so every
`hardware_set_motor_speed` issued at that speed — in particular the one
inside `automatic_mode_maintain_cruise_speed` — is rejected with the
invalid-argument error on an initialized system, and the hardware target
speed is never set to 5 m/s (more generally, never to anything above the
2 m/s limit). -/
theorem auto_cruise_speed_rejected_by_hardware (a : AutoState) (hw : HwState)
    (dir : Bool) (hinit : hw.status.system_initialized = true) :
    MAX_SPEED_MS < AUTO_MODE_MAX_SPEED_MS ∧
    MAX_SPEED_MS < AUTO_COASTING_CALIBRATION_SPEED ∧
    (hardware_set_motor_speed hw AUTO_MODE_MAX_SPEED_MS dir).2 =
      EspErr.errInvalidArg ∧
    (hardware_set_motor_speed hw AUTO_MODE_MAX_SPEED_MS dir).1.status.target_speed_ms =
      hw.status.target_speed_ms ∧
    (automatic_mode_maintain_cruise_speed a hw).2.1.status.target_speed_ms =
      hw.status.target_speed_ms ∧
    (∀ s : ℚ, MAX_SPEED_MS < s →
      (hardware_set_motor_speed hw s dir).1.status.target_speed_ms =
        hw.status.target_speed_ms) := by
  have h5 : MAX_SPEED_MS < AUTO_MODE_MAX_SPEED_MS := by
    norm_num [MAX_SPEED_MS, AUTO_MODE_MAX_SPEED_MS]
  have hrej := set_motor_speed_rejects_out_of_range hw AUTO_MODE_MAX_SPEED_MS dir
    hinit (Or.inr h5)
  refine ⟨h5, by norm_num [MAX_SPEED_MS, AUTO_COASTING_CALIBRATION_SPEED],
    hrej.1, hrej.2.1, ?_, ?_⟩
  · unfold automatic_mode_maintain_cruise_speed
    dsimp only
    split
    · exact (set_motor_speed_above_limit_never_writes hw AUTO_MODE_MAX_SPEED_MS
        a.cycle_data.current_direction_forward h5).1
    · rfl
  · intro s hs
    exact (set_motor_speed_above_limit_never_writes hw s dir hs).1

/-- Witness for C3 at the sample armed-and-initialized hardware state. -/
theorem auto_cruise_speed_rejected_by_hardware_witness :
    MAX_SPEED_MS < AUTO_MODE_MAX_SPEED_MS ∧
    MAX_SPEED_MS < AUTO_COASTING_CALIBRATION_SPEED ∧
    (hardware_set_motor_speed hwSample AUTO_MODE_MAX_SPEED_MS true).2 =
      EspErr.errInvalidArg ∧
    (hardware_set_motor_speed hwSample AUTO_MODE_MAX_SPEED_MS true).1.status.target_speed_ms =
      hwSample.status.target_speed_ms ∧
    (automatic_mode_maintain_cruise_speed AutoState.boot hwSample).2.1.status.target_speed_ms =
      hwSample.status.target_speed_ms ∧
    (∀ s : ℚ, MAX_SPEED_MS < s →
      (hardware_set_motor_speed hwSample s true).1.status.target_speed_ms =
        hwSample.status.target_speed_ms) :=
  auto_cruise_speed_rejected_by_hardware AutoState.boot hwSample true (by decide)

/-! Manual control engine (manual_mode.h / manual_mode.cpp), the parts the
coordinator claims touch. -/

/-- MANUAL_MODE_MAX_SPEED_MS = 2.0f -/
def MANUAL_MODE_MAX_SPEED_MS : ℚ := 2

/-- MANUAL_MODE_MIN_SPEED_MS = 0.05f -/
def MANUAL_MODE_MIN_SPEED_MS : ℚ := 1 / 20

/-- The `manual_mode_state_t` enum, in declaration order. -/
inductive manual_mode_state where
  | idle
  | initializing
  | ready
  | escArming
  | active
  | movingForward
  | movingBackward
  | stopping
  | escDisarming
  | errorState
  | emergencyStop
deriving DecidableEq, Repr

/-- Numeric value of a `manual_mode_state_t`. -/
def manual_mode_state.idx : manual_mode_state → ℕ
  | .idle => 0
  | .initializing => 1
  | .ready => 2
  | .escArming => 3
  | .active => 4
  | .movingForward => 5
  | .movingBackward => 6
  | .stopping => 7
  | .escDisarming => 8
  | .errorState => 9
  | .emergencyStop => 10

/-- The fields of the manual-mode status the embedded functions touch
(message strings and session statistics elided). -/
structure ManualState where
  initialized : Bool
  state : manual_mode_state
  esc_armed : Bool
  esc_responding : Bool
  motor_active : Bool
  target_speed_ms : ℚ
  current_speed_ms : ℚ
  direction_forward : Bool
  max_speed_reached : ℚ
  mode_start_time : ℕ
  command_count : ℕ
  error_count : ℕ
deriving DecidableEq, Repr

/-- The boot value of the manual-mode status. -/
def ManualState.boot : ManualState where
  initialized := false
  state := .idle
  esc_armed := false
  esc_responding := false
  motor_active := false
  target_speed_ms := 0
  current_speed_ms := 0
  direction_forward := true
  max_speed_reached := 0
  mode_start_time := 0
  command_count := 0
  error_count := 0

/-- `manual_mode_init`. -/
def manual_mode_init (m : ManualState) : ManualState :=
  { m with initialized := true, state := .idle }

/-- `manual_mode_is_active`: strictly between Idle and EmergencyStop. -/
def manual_mode_is_active (m : ManualState) : Bool :=
  decide (manual_mode_state.idle.idx < m.state.idx) &&
  decide (m.state.idx < manual_mode_state.emergencyStop.idx)

/-- `manual_mode_is_speed_safe`: in [0, 2] and within 1 m/s of the current
speed. -/
def manual_mode_is_speed_safe (m : ManualState) (speed_ms : ℚ) : Bool :=
  if speed_ms < 0 ∨ MANUAL_MODE_MAX_SPEED_MS < speed_ms then false
  else if (1 : ℚ) < |speed_ms - m.current_speed_ms| then false
  else true

/-- `manual_mode_set_speed`: validation chain, then the status fields are
written before the hardware command; the state only changes when the
hardware command succeeded. -/
def manual_mode_set_speed (m : ManualState) (hw : HwState) (speed_ms : ℚ)
    (forward : Bool) : ManualState × HwState × EspErr :=
  if manual_mode_is_active m = false then (m, hw, .errInvalidState)
  else if manual_mode_is_speed_safe m speed_ms = false then (m, hw, .errInvalidArg)
  else if m.esc_armed = false ∧ 0 < speed_ms then (m, hw, .errInvalidState)
  else
    let m1 := { m with
      target_speed_ms := speed_ms
      direction_forward := forward
      motor_active := decide (MANUAL_MODE_MIN_SPEED_MS < speed_ms)
      max_speed_reached :=
        if m.max_speed_reached < speed_ms then speed_ms else m.max_speed_reached }
    let cmd := hardware_set_motor_speed hw speed_ms forward
    if cmd.2 ≠ .ok then (m1, cmd.1, cmd.2)
    else if MANUAL_MODE_MIN_SPEED_MS < speed_ms then
      (if forward = true then { m1 with state := .movingForward }
       else { m1 with state := .movingBackward }, cmd.1, .ok)
    else ({ m1 with state := .active }, cmd.1, .ok)

/-- `manual_mode_stop_movement`: command zero speed; on success pass through
Stopping and settle in Active. -/
def manual_mode_stop_movement (m : ManualState) (hw : HwState) :
    ManualState × HwState × EspErr :=
  let r := manual_mode_set_speed m hw 0 m.direction_forward
  if r.2.2 = .ok then ({ r.1 with state := .active }, r.2.1, .ok)
  else r

/-- `manual_mode_disarm_esc`: stop movement, disarm the hardware ESC, clear
the motion flags and settle in Ready. -/
def manual_mode_disarm_esc (m : ManualState) (hw : HwState) :
    ManualState × HwState × EspErr :=
  let s := manual_mode_stop_movement m hw
  let d := hardware_esc_disarm s.2.1
  ({ s.1 with
      esc_armed := false
      esc_responding := false
      motor_active := false
      target_speed_ms := 0
      state := .ready }, d.1, d.2)

/-- `manual_mode_start`: requires init and validated sensors; resets the
session and position tracking and enters Ready. -/
def manual_mode_start (m : ManualState) (hw : HwState) (c : CoordState)
    (now : ℕ) : ManualState × HwState × EspErr :=
  if m.initialized = false then (m, hw, .errInvalidState)
  else if mode_coordinator_are_sensors_validated c = false then
    (m, hw, .errInvalidState)
  else
    ({ m with
        state := .ready
        mode_start_time := now
        esc_armed := false
        motor_active := false
        target_speed_ms := 0
        current_speed_ms := 0
        direction_forward := true
        command_count := 0
        error_count := 0 }, hardware_reset_position hw, .ok)

/-- `manual_mode_stop`: stop movement, disarm if the manual ESC flag is
set, and settle in Idle. -/
def manual_mode_stop (m : ManualState) (hw : HwState) :
    ManualState × HwState × EspErr :=
  let s := manual_mode_stop_movement m hw
  let d :=
    if s.1.esc_armed = true then manual_mode_disarm_esc s.1 s.2.1
    else (s.1, s.2.1, EspErr.ok)
  ({ d.1 with state := .idle }, d.2.1, .ok)

/-! Mode coordinator, system-level operations (C2 and C7). -/

/-- The five modules of the embedded core as one system state. -/
structure SysState where
  hw : HwState
  wl : WLState
  auto : AutoState
  man : ManualState
  coord : CoordState
deriving DecidableEq, Repr

/-- `update_mode_availability` (given each engine's is_active report). -/
def update_mode_availability (c : CoordState) (wlA autoA manA : Bool) :
    CoordState :=
  let wla :=
    if c.sensors_validated = false then mode_availability.blockedSensorsNotValidated
    else if wlA = true then .active
    else if c.system_healthy = false then .blockedSystemError
    else .available
  let aua :=
    if c.sensors_validated = false then mode_availability.blockedSensorsNotValidated
    else if c.wire_learning_data.complete = false then .blockedWireLearningRequired
    else if autoA = true then .active
    else if c.system_healthy = false then .blockedSystemError
    else .available
  let mana :=
    if c.sensors_validated = false then mode_availability.blockedSensorsNotValidated
    else if manA = true then .active
    else if c.system_healthy = false then .blockedSystemError
    else .available
  { c with
    wire_learning_availability := wla
    automatic_availability := aua
    manual_availability := mana }

/-- `update_current_mode_status` (given each engine's is_active report). -/
def update_current_mode_status (c : CoordState) (wlA autoA manA : Bool) :
    CoordState :=
  if wlA = true then { c with current_mode := .tmWireLearning }
  else if autoA = true then { c with current_mode := .tmAutomatic }
  else if manA = true then { c with current_mode := .tmManual }
  else { c with current_mode := .tmNone }

/-- `mode_coordinator_is_mode_available`. -/
def mode_coordinator_is_mode_available (c : CoordState)
    (mode : trolley_operation_mode) : Bool :=
  match mode with
  | .tmWireLearning => decide (c.wire_learning_availability = .available)
  | .tmAutomatic => decide (c.automatic_availability = .available)
  | .tmManual => decide (c.manual_availability = .available)
  | .tmNone => false

/-- `mode_coordinator_update`: validation state, availabilities, current
mode, system health, and the 30 s error auto-reset. -/
def mode_coordinator_update (s : SysState) (inp : sensor_health_inputs)
    (now : ℕ) : SysState × EspErr :=
  if s.coord.initialized = false then (s, .errInvalidState)
  else
    let c1 := update_sensor_validation_state s.coord inp now
    let wlA := wire_learning_mode_is_active s.wl
    let autoA := automatic_mode_is_active s.auto
    let manA := manual_mode_is_active s.man
    let c2 := update_mode_availability c1 wlA autoA manA
    let c3 := update_current_mode_status c2 wlA autoA manA
    let c4 := { c3 with system_healthy :=
      (s.hw.status.system_initialized && inp.system_ready &&
        decide (c3.error_count < MAX_SYSTEM_ERRORS)) }
    let c5 :=
      if 0 < c4.error_count ∧
          ERROR_RESET_TIME_MS * 1000 < now - c4.last_error_reset_time then
        { c4 with error_count := 0 }
      else c4
    ({ s with coord := c5 }, .ok)

/-- `mode_coordinator_stop_current_mode`: dispatch the stop to whichever
engine the coordinator currently records, then clear the current mode. -/
def mode_coordinator_stop_current_mode (s : SysState) (immediate : Bool)
    (now : ℕ) : SysState :=
  let s1 :=
    match s.coord.current_mode with
    | .tmWireLearning =>
        let r := wire_learning_mode_stop s.wl s.hw immediate
        { s with wl := r.1, hw := r.2 }
    | .tmAutomatic =>
        if immediate = true then
          let r := automatic_mode_interrupt s.auto s.hw
          { s with auto := r.1, hw := r.2 }
        else { s with auto := automatic_mode_stop_graceful s.auto now }
    | .tmManual =>
        let r := manual_mode_stop s.man s.hw
        { s with man := r.1, hw := r.2.1 }
    | .tmNone => s
  { s1 with coord := { s1.coord with
      previous_mode := s.coord.current_mode
      current_mode := .tmNone } }

/-- `mode_coordinator_activate_wire_learning`. -/
def mode_coordinator_activate_wire_learning (s : SysState) (now : ℕ) :
    SysState × EspErr :=
  if mode_coordinator_is_mode_available s.coord .tmWireLearning = false then
    (s, .errInvalidState)
  else
    let s1 := mode_coordinator_stop_current_mode s true now
    let prereq : Bool :=
      mode_coordinator_are_sensors_validated s1.coord &&
      (s1.hw.status.system_initialized && s1.hw.status.hall_sensor_healthy)
    let r := wire_learning_mode_start s1.wl s1.hw now prereq
    let s2 := { s1 with wl := r.1, hw := r.2.1 }
    if r.2.2 = .ok then
      ({ s2 with coord := { s2.coord with mode_start_time := now } }, .ok)
    else (s2, r.2.2)

/-- `mode_coordinator_activate_automatic`. -/
def mode_coordinator_activate_automatic (s : SysState) (now : ℕ) :
    SysState × EspErr :=
  if mode_coordinator_is_mode_available s.coord .tmAutomatic = false then
    (s, .errInvalidState)
  else
    let s1 := mode_coordinator_stop_current_mode s true now
    let r := automatic_mode_start s1.auto s1.hw s1.coord now
    let s2 := { s1 with auto := r.1, hw := r.2.1 }
    if r.2.2 = .ok then
      ({ s2 with coord := { s2.coord with mode_start_time := now } }, .ok)
    else (s2, r.2.2)

/-- `mode_coordinator_activate_manual`. -/
def mode_coordinator_activate_manual (s : SysState) (now : ℕ) :
    SysState × EspErr :=
  if mode_coordinator_is_mode_available s.coord .tmManual = false then
    (s, .errInvalidState)
  else
    let s1 := mode_coordinator_stop_current_mode s true now
    let r := manual_mode_start s1.man s1.hw s1.coord now
    let s2 := { s1 with man := r.1, hw := r.2.1 }
    if r.2.2 = .ok then
      ({ s2 with coord := { s2.coord with mode_start_time := now } }, .ok)
    else (s2, r.2.2)

/-- `mode_coordinator_emergency_stop`: cut hardware power, then stop all
three engines unconditionally (immediate stop / interrupt / stop) and clear
the current mode. -/
def mode_coordinator_emergency_stop (s : SysState) : SysState :=
  let hw1 := hardware_emergency_stop s.hw
  let w := wire_learning_mode_stop s.wl hw1 true
  let a := automatic_mode_interrupt s.auto w.2
  let m := manual_mode_stop s.man a.2
  { s with
    hw := m.2.1
    wl := w.1
    auto := a.1
    man := m.1
    coord := { s.coord with current_mode := .tmNone } }

/-! Helper lemmas about stopping, for C2 and C7. -/

/-- A speed command on a disarmed ESC never changes the motion fields. -/
theorem set_motor_speed_disarmed_keeps (hw : HwState) (sp : ℚ) (d : Bool)
    (h : hw.status.esc_armed = false) :
    (hardware_set_motor_speed hw sp d).1.status.target_speed_ms =
      hw.status.target_speed_ms ∧
    (hardware_set_motor_speed hw sp d).1.status.current_esc_duty =
      hw.status.current_esc_duty ∧
    (hardware_set_motor_speed hw sp d).1.status.esc_armed = hw.status.esc_armed := by
  unfold hardware_set_motor_speed
  split
  · exact ⟨rfl, rfl, rfl⟩
  · split
    · exact ⟨rfl, rfl, rfl⟩
    · exact ⟨rfl, rfl, rfl⟩

/-- `manual_mode_set_speed` on a disarmed ESC keeps the hardware motion
fields. -/
theorem manual_set_speed_disarmed_keeps (m : ManualState) (hw : HwState)
    (sp : ℚ) (fwd : Bool) (h : hw.status.esc_armed = false) :
    (manual_mode_set_speed m hw sp fwd).2.1.status.target_speed_ms =
      hw.status.target_speed_ms ∧
    (manual_mode_set_speed m hw sp fwd).2.1.status.current_esc_duty =
      hw.status.current_esc_duty ∧
    (manual_mode_set_speed m hw sp fwd).2.1.status.esc_armed =
      hw.status.esc_armed := by
  have h0 := set_motor_speed_disarmed_keeps hw sp fwd h
  unfold manual_mode_set_speed
  split
  · exact ⟨rfl, rfl, rfl⟩
  · split
    · exact ⟨rfl, rfl, rfl⟩
    · split
      · exact ⟨rfl, rfl, rfl⟩
      · dsimp only
        split
        · exact h0
        · split
          · split <;> exact h0
          · exact h0

/-- `manual_mode_stop_movement` on a disarmed ESC keeps the hardware motion
fields. -/
theorem manual_stop_movement_disarmed_keeps (m : ManualState) (hw : HwState)
    (h : hw.status.esc_armed = false) :
    (manual_mode_stop_movement m hw).2.1.status.target_speed_ms =
      hw.status.target_speed_ms ∧
    (manual_mode_stop_movement m hw).2.1.status.current_esc_duty =
      hw.status.current_esc_duty ∧
    (manual_mode_stop_movement m hw).2.1.status.esc_armed =
      hw.status.esc_armed := by
  have h1 := manual_set_speed_disarmed_keeps m hw 0 m.direction_forward h
  unfold manual_mode_stop_movement
  dsimp only
  split
  · exact h1
  · exact h1

/-- `manual_mode_stop` always settles in Idle; called on hardware that is
already disarmed with zero target and neutral duty (as after an emergency
stop), it leaves those hardware fields that way. -/
theorem manual_stop_after_emergency (m : ManualState) (hw : HwState)
    (harm : hw.status.esc_armed = false)
    (htgt : hw.status.target_speed_ms = 0)
    (hduty : hw.status.current_esc_duty = ESC_NEUTRAL_DUTY) :
    (manual_mode_stop m hw).1.state = manual_mode_state.idle ∧
    (manual_mode_stop m hw).2.1.status.target_speed_ms = 0 ∧
    (manual_mode_stop m hw).2.1.status.current_esc_duty = ESC_NEUTRAL_DUTY ∧
    (manual_mode_stop m hw).2.1.status.esc_armed = false := by
  have h2 := manual_stop_movement_disarmed_keeps m hw harm
  unfold manual_mode_stop
  dsimp only
  split
  · exact ⟨rfl, rfl, rfl, rfl⟩
  · refine ⟨rfl, ?_, ?_, ?_⟩
    · rw [h2.1, htgt]
    · rw [h2.2.1, hduty]
    · rw [h2.2.2, harm]

/-- An immediate `wire_learning_mode_stop` leaves the engine in Idle. -/
theorem wire_stop_immediate_idle (wl : WLState) (hw : HwState) :
    (wire_learning_mode_stop wl hw true).1.progress.state =
      wire_learning_state.idle := by
  unfold wire_learning_mode_stop
  dsimp only
  rw [if_pos rfl]

/-- The wire-learning engine is inactive in Idle. -/
theorem wire_is_active_false_of_idle (wl : WLState)
    (h : wl.progress.state = wire_learning_state.idle) :
    wire_learning_mode_is_active wl = false := by
  simp [wire_learning_mode_is_active, h, wire_learning_state.idx]

/-- The manual engine is inactive in Idle. -/
theorem manual_is_active_false_of_idle (m : ManualState)
    (h : m.state = manual_mode_state.idle) :
    manual_mode_is_active m = false := by
  simp [manual_mode_is_active, h, manual_mode_state.idx]

/-- The automatic engine reports itself active while in
StoppingInterrupted. -/
theorem auto_active_in_stopping_interrupted (a : AutoState)
    (h : a.state = automatic_mode_state.stoppingInterrupted) :
    automatic_mode_is_active a = true := by
  simp [automatic_mode_is_active, h, automatic_mode_state.idx]

/-- An automatic-mode update cycle does not leave StoppingInterrupted: only
the Coasting and CoastingCalibration states have update work. -/
theorem auto_update_keeps_stopping_interrupted (a : AutoState) (hw : HwState)
    (c : CoordState) (now : ℕ) (g : ℚ)
    (h : a.state = automatic_mode_state.stoppingInterrupted) :
    (automatic_mode_update a hw c now g).1.state =
      automatic_mode_state.stoppingInterrupted := by
  unfold automatic_mode_update
  split
  · exact h
  · split
    · rename_i heq
      rw [h] at heq
      cases heq
    · rename_i heq
      rw [h] at heq
      cases heq
    · exact h

/-- C2 (amended): invoking the coordinator's emergency stop from any system
state forces the hardware target speed to 0 and the ESC duty to neutral
(and disarms the ESC), and leaves the wire-learning and manual engines
inactive — but the automatic engine is left in StoppingInterrupted, a state
its `is_active()` predicate still reports as active, and an automatic-mode
update cycle does not leave that state, so the automatic engine's active
flag does not become false within one update cycle. -/
theorem emergency_stop_effects (s : SysState) (now : ℕ) (c : CoordState) (g : ℚ) :
    (mode_coordinator_emergency_stop s).hw.status.target_speed_ms = 0 ∧
    (mode_coordinator_emergency_stop s).hw.status.current_esc_duty =
      ESC_NEUTRAL_DUTY ∧
    (mode_coordinator_emergency_stop s).hw.status.esc_armed = false ∧
    wire_learning_mode_is_active (mode_coordinator_emergency_stop s).wl = false ∧
    manual_mode_is_active (mode_coordinator_emergency_stop s).man = false ∧
    (mode_coordinator_emergency_stop s).auto.state =
      automatic_mode_state.stoppingInterrupted ∧
    automatic_mode_is_active (mode_coordinator_emergency_stop s).auto = true ∧
    (automatic_mode_update (mode_coordinator_emergency_stop s).auto
        (mode_coordinator_emergency_stop s).hw c now g).1.state =
      automatic_mode_state.stoppingInterrupted ∧
    (mode_coordinator_emergency_stop s).coord.current_mode =
      trolley_operation_mode.tmNone := by
  have hstop := manual_stop_after_emergency s.man
    ((automatic_mode_interrupt s.auto
      (wire_learning_mode_stop s.wl (hardware_emergency_stop s.hw) true).2).2)
    rfl rfl rfl
  refine ⟨hstop.2.1, hstop.2.2.1, hstop.2.2.2, ?_, ?_, rfl, ?_, ?_, rfl⟩
  · exact wire_is_active_false_of_idle _
      (wire_stop_immediate_idle s.wl (hardware_emergency_stop s.hw))
  · exact manual_is_active_false_of_idle _ hstop.1
  · exact auto_active_in_stopping_interrupted _ rfl
  · exact auto_update_keeps_stopping_interrupted _ _ c now g rfl

/-- A completed wire-learning result of a 10 m wire, as the coordinator
stores it after a successful learning run. -/
def wlResultsSample : wire_learning_results where
  complete := true
  wire_length_m := 10
  optimal_learning_speed_ms := 1
  optimal_cruise_speed_ms := 3/2
  forward_rotations := 52
  reverse_rotations := 52
  total_learning_time_ms := 30000
  primary_detection_method := .wireEndImpact
  learning_accuracy_percent := 100

/-- A coordinator state after completed sensor validation and wire
learning, with the automatic mode recorded as the current mode. -/
def coordAutoRunning : CoordState :=
  { CoordState.afterInit with
    sensors_validated := true
    sensor_validation_state := .complete
    hall_validation_complete := true
    accel_validation_complete := true
    wire_learning_data := wlResultsSample
    status_wire_learning := wlResultsSample
    current_mode := .tmAutomatic
    wire_learning_availability := .available
    automatic_availability := .active
    manual_availability := .available }

/-- The automatic engine mid-run (cruising on the 10 m wire). -/
def autoCruising : AutoState :=
  { AutoState.boot with
    initialized := true
    state := .cruising
    esc_auto_armed := true
    wire_length_m := 10
    cycle_data := { cycle_data.zero with current_direction_forward := true } }

/-- The whole system with the automatic mode active and cruising. -/
def sysAutoRunning : SysState where
  hw := hwSample
  wl := { WLState.boot with initialized := true }
  auto := autoCruising
  man := { ManualState.boot with initialized := true }
  coord := coordAutoRunning

/-- Counterexample for C2 as stated: with the automatic mode cruising,
after the coordinator's emergency stop and a further automatic-mode update
cycle the automatic engine's `is_active()` still reports true (it is parked
in StoppingInterrupted, which no update cycle leaves). -/
theorem emergency_stop_leaves_automatic_active :
    automatic_mode_is_active sysAutoRunning.auto = true ∧
    automatic_mode_is_active
      (mode_coordinator_emergency_stop sysAutoRunning).auto = true ∧
    (automatic_mode_update (mode_coordinator_emergency_stop sysAutoRunning).auto
        (mode_coordinator_emergency_stop sysAutoRunning).hw
        (mode_coordinator_emergency_stop sysAutoRunning).coord 1000 0).1.state =
      automatic_mode_state.stoppingInterrupted ∧
    automatic_mode_is_active
      (automatic_mode_update (mode_coordinator_emergency_stop sysAutoRunning).auto
        (mode_coordinator_emergency_stop sysAutoRunning).hw
        (mode_coordinator_emergency_stop sysAutoRunning).coord 1000 0).1 = true := by
  refine ⟨by decide, ?_, ?_, ?_⟩
  · exact auto_active_in_stopping_interrupted _ rfl
  · exact auto_update_keeps_stopping_interrupted _ _ _ 1000 0 rfl
  · exact auto_active_in_stopping_interrupted _
      (auto_update_keeps_stopping_interrupted _ _ _ 1000 0 rfl)

/-- Witness for the amended C2 theorem at the concrete running system. -/
theorem emergency_stop_effects_witness :
    (mode_coordinator_emergency_stop sysAutoRunning).hw.status.target_speed_ms = 0 ∧
    (mode_coordinator_emergency_stop sysAutoRunning).hw.status.current_esc_duty =
      ESC_NEUTRAL_DUTY ∧
    (mode_coordinator_emergency_stop sysAutoRunning).hw.status.esc_armed = false ∧
    wire_learning_mode_is_active
      (mode_coordinator_emergency_stop sysAutoRunning).wl = false ∧
    manual_mode_is_active
      (mode_coordinator_emergency_stop sysAutoRunning).man = false ∧
    (mode_coordinator_emergency_stop sysAutoRunning).auto.state =
      automatic_mode_state.stoppingInterrupted ∧
    automatic_mode_is_active
      (mode_coordinator_emergency_stop sysAutoRunning).auto = true ∧
    (automatic_mode_update (mode_coordinator_emergency_stop sysAutoRunning).auto
        (mode_coordinator_emergency_stop sysAutoRunning).hw
        CoordState.afterInit 1000 0).1.state =
      automatic_mode_state.stoppingInterrupted ∧
    (mode_coordinator_emergency_stop sysAutoRunning).coord.current_mode =
      trolley_operation_mode.tmNone :=
  emergency_stop_effects sysAutoRunning 1000 CoordState.afterInit 0

/-- C7 (amended): activating a mode first invokes the immediate stop of the
currently recorded mode before the new mode's start logic runs, and the
coordinator clears its current-mode slot; an immediately stopped
wire-learning or manual engine is inactive afterwards, but an interrupted
automatic engine is parked in StoppingInterrupted, which its `is_active()`
reports as active — so activating another mode while the automatic mode is
current leaves two engines reporting active and the at-most-one-active
property fails (see the counterexample). -/
theorem stop_current_mode_immediate_effects (s : SysState) (now : ℕ) :
    (mode_coordinator_stop_current_mode s true now).coord.current_mode =
      trolley_operation_mode.tmNone ∧
    (s.coord.current_mode = .tmWireLearning →
      wire_learning_mode_is_active
        (mode_coordinator_stop_current_mode s true now).wl = false) ∧
    (s.coord.current_mode = .tmManual →
      manual_mode_is_active
        (mode_coordinator_stop_current_mode s true now).man = false) ∧
    (s.coord.current_mode = .tmAutomatic →
      (mode_coordinator_stop_current_mode s true now).auto.state =
        automatic_mode_state.stoppingInterrupted ∧
      automatic_mode_is_active
        (mode_coordinator_stop_current_mode s true now).auto = true) := by
  unfold mode_coordinator_stop_current_mode
  dsimp only
  split
  · rename_i heq
    refine ⟨rfl, ?_, ?_, ?_⟩
    · intro _
      exact wire_is_active_false_of_idle _ (wire_stop_immediate_idle s.wl s.hw)
    · intro hc
      rw [heq] at hc
      cases hc
    · intro hc
      rw [heq] at hc
      cases hc
  · rename_i heq
    rw [if_pos rfl]
    refine ⟨rfl, ?_, ?_, ?_⟩
    · intro hc
      rw [heq] at hc
      cases hc
    · intro hc
      rw [heq] at hc
      cases hc
    · intro _
      exact ⟨rfl, auto_active_in_stopping_interrupted _ rfl⟩
  · rename_i heq
    refine ⟨rfl, ?_, ?_, ?_⟩
    · intro hc
      rw [heq] at hc
      cases hc
    · intro _
      refine manual_is_active_false_of_idle _ ?_
      unfold manual_mode_stop
      rfl
    · intro hc
      rw [heq] at hc
      cases hc
  · rename_i heq
    refine ⟨rfl, ?_, ?_, ?_⟩ <;>
      · intro hc
        rw [heq] at hc
        cases hc

/-- Counterexample for C7 as stated: with the automatic mode cruising,
activating the manual mode succeeds (manual is Available), interrupts the
automatic engine — and afterwards both the automatic engine (in
StoppingInterrupted) and the manual engine (in Ready) report
`is_active() = true` at the same instant. -/
theorem two_engines_active_after_switch :
    automatic_mode_is_active sysAutoRunning.auto = true ∧
    manual_mode_is_active sysAutoRunning.man = false ∧
    (mode_coordinator_activate_manual sysAutoRunning 2000).2 = EspErr.ok ∧
    automatic_mode_is_active
      (mode_coordinator_activate_manual sysAutoRunning 2000).1.auto = true ∧
    manual_mode_is_active
      (mode_coordinator_activate_manual sysAutoRunning 2000).1.man = true := by
  decide

/-- Witness for the amended C7 theorem at the concrete running system. -/
theorem stop_current_mode_immediate_effects_witness :
    (mode_coordinator_stop_current_mode sysAutoRunning true 2000).coord.current_mode =
      trolley_operation_mode.tmNone ∧
    (mode_coordinator_stop_current_mode sysAutoRunning true 2000).auto.state =
      automatic_mode_state.stoppingInterrupted ∧
    automatic_mode_is_active
      (mode_coordinator_stop_current_mode sysAutoRunning true 2000).auto = true := by
  have h := stop_current_mode_immediate_effects sysAutoRunning 2000
  have ha := h.2.2.2 (by decide)
  exact ⟨h.1, ha.1, ha.2⟩

end Trolley8
